import Mathlib

/-!
# RcppClassic examples: `Rcpp_Example` and `classicRcppDateExample`

A shallow embedding of the two native entry points of the repository
(`src/classicRcppExample.cpp`, `src/classicRcppDateExample.cpp`) and of the two
callback wrapper classes `MyRVectorFunc` and `MyRListFunc`.

* The C++ `double` is a type parameter `D` carrying `+`, `*`, the conversion
  from `int` (`IntCast`) and decimal literals (`OfScientific`).  Every theorem
  whose statement is generic in `D` therefore holds for any interpretation of
  the arithmetic, IEEE doubles included; the concrete scenarios are evaluated
  at `D := ℚ`, where all values involved are small and exactly representable.
* Native code runs in `Native D α := World D → Res α × World D`: it returns,
  throws a C++ exception, or has undefined behaviour (an unchecked access out
  of bounds), and it leaves a world behind in each case.  The world holds the
  protection stack, the host calls made, the lines printed, and the log of the
  reads of host results and of the releases of handles, in the order in which
  they happen.
* Every `operator[]` of a `std::vector`, every read through `REAL(x)` and every
  raw-pointer read is an unchecked access (`uncheckedGet`, `uncheckedSet`,
  `REAL`, `readArray`); the `operator()` of the Rcpp views is a checked one.
* Lengths and loop counters are natural numbers: the lengths come from host
  vectors and from the constants 2, 3 and 10, well inside the range of `int`.
* The RcppClassic library classes used by the sources (`RcppFunction`,
  `RcppParams`, `RcppVector`, `RcppMatrix`, `RcppResultSet`, ...) are not part
  of `src/`; they are modelled from the specification and every such
  definition says so in its doc comment.
-/

namespace RcppClassic

/-! ## Failures and the native monad -/

/-- Error taxonomy of the marshalling layer (spec section 7). -/
inductive ErrorKind where
  | typeMismatch
  | shapeError
  | indexOutOfRange
  | columnCountMismatch
  | columnTypeMismatch
  | missingField
  | callbackError
  | alreadyFinalized
deriving DecidableEq, Repr

/-- A thrown C++ object: either derived from `std::exception` (it has a kind
and a `what()` text) or anything else (only `catch(...)` sees it). -/
inductive CppException where
  | stdException (kind : ErrorKind) (what : String)
  | other
deriving DecidableEq, Repr

/-- Result of a piece of native code. `undefined` is C++ undefined behaviour:
an unchecked index access outside the container. -/
inductive Res (α : Type) where
  | ok (a : α)
  | throw (e : CppException)
  | undefined
deriving DecidableEq, Repr

/-- Sequencing of exception-raising code without side effects. -/
def Res.bind {α β : Type} (r : Res α) (f : α → Res β) : Res β :=
  match r with
  | .ok a => f a
  | .throw e => .throw e
  | .undefined => .undefined

instance : Monad Res where
  pure := Res.ok
  bind := Res.bind

/-- C loop `for (i = i0; i < i0 + count; i++) body(i)` over the variables
`σ` the body assigns to. An exception or undefined behaviour inside the body
ends the loop. -/
def forLoop {m : Type → Type} [Monad m] {σ : Type} (body : Nat → σ → m σ) :
    Nat → Nat → σ → m σ
  | 0, _, s => pure s
  | count + 1, i, s => body i s >>= forLoop body count (i + 1)

/-- Unchecked read `v[i]` of a `std::vector`, a C array or `REAL(x)`. -/
def uncheckedGet {α : Type} (v : List α) (i : Nat) : Res α :=
  match v[i]? with
  | some x => .ok x
  | none => .undefined

/-- Unchecked write `v[i] = x` of a `std::vector` or a C array. -/
def uncheckedSet {α : Type} (v : List α) (i : Nat) (x : α) : Res (List α) :=
  if i < v.length then .ok (v.set i x) else .undefined

/-- Modelled from the spec: the bounds-checked element read `get(i)` of a
Typed View (RcppVector and friends, `operator()`), which is not part of src;
it fails with `IndexOutOfRange`. -/
def checkedGet {α : Type} (v : List α) (i : Nat) : Res α :=
  match v[i]? with
  | some x => .ok x
  | none => .throw (.stdException .indexOutOfRange "IndexOutOfRange: subscript out of range")

/-- Modelled from the spec: the bounds-checked element write `set(i,v)` of a
Typed View, which is not part of src; it fails with `IndexOutOfRange`. -/
def checkedSet {α : Type} (v : List α) (i : Nat) (x : α) : Res (List α) :=
  if i < v.length then .ok (v.set i x)
  else .throw (.stdException .indexOutOfRange "IndexOutOfRange: subscript out of range")

/-! ## Host interpreter values -/

/-- Modelled from the spec: a value of kind `date` (class `RcppDate`, which is
not part of src). It is a day number; `RcppDate.ofMDY` and `RcppDate.mdy`
relate it to a (month, day, year) triple of the Gregorian calendar. -/
structure RcppDate where
  jdn : Int
deriving DecidableEq, Repr

/-- Modelled from the spec: the date `RcppDate(month, day, year)`; the class is
not part of src. Integer division truncates as in C. -/
def RcppDate.ofMDY (month day year : Int) : RcppDate :=
  let a := (14 - month).tdiv 12
  let y := year + 4800 - a
  let m := month + 12 * a - 3
  ⟨day + (153 * m + 2).tdiv 5 + 365 * y + y.tdiv 4 - y.tdiv 100 + y.tdiv 400 - 32045⟩

/-- Modelled from the spec: the (month, day, year) reading of a date; the class
`RcppDate` is not part of src. -/
def RcppDate.mdy (date : RcppDate) : Int × Int × Int :=
  let jul := date.jdn + 32044
  let g := jul.tdiv 146097
  let dg := jul.tmod 146097
  let c := ((dg.tdiv 36524 + 1) * 3).tdiv 4
  let dc := dg - c * 36524
  let b := dc.tdiv 1461
  let db := dc.tmod 1461
  let a := ((db.tdiv 365 + 1) * 3).tdiv 4
  let da := db - a * 365
  let y := g * 400 + c * 100 + b * 4 + a
  let m := (da * 5 + 308).tdiv 153 - 2
  let d := da - ((m + 4) * 153).tdiv 5 + 122
  ((m + 2).tmod 12 + 1, d + 1, y - 4800 + (m + 2).tdiv 12)

/-- Modelled from the spec: the month of a date, `RcppDate::getMonth()` of the
absent class. -/
def RcppDate.getMonth (date : RcppDate) : Int := date.mdy.1

/-- Modelled from the spec: the day of a date, `RcppDate::getDay()` of the
absent class. -/
def RcppDate.getDay (date : RcppDate) : Int := date.mdy.2.1

/-- Modelled from the spec: the year of a date, `RcppDate::getYear()` of the
absent class. -/
def RcppDate.getYear (date : RcppDate) : Int := date.mdy.2.2

/-- Modelled from the spec: `date + offset` advances a date by `offset` days
(the operator of the absent class `RcppDate`). -/
instance : HAdd RcppDate Int RcppDate where
  hAdd date offset := ⟨date.jdn + offset⟩

/-- Argument packed for a host function: the single real vector of the
positional-vector convention or the named list of the named-list one. -/
inductive HostArg (D : Type) where
  | vector (v : List D)
  | namedList (items : List (String × D))
deriving DecidableEq, Repr

/-- A host (R) function as the callback wrappers see it: applied to the packed
argument it either returns a numeric vector or raises an error in the host
interpreter, with the text of that error. -/
abbrev HostFn (D : Type) := HostArg D → Except String (List D)

/-- Modelled from the spec: the discriminated cell value `ColDatum` of a
column-typed table (spec section 3); `unknown` is the state of a
default-constructed cell, as in `std::vector<ColDatum> row1(numCol)`. -/
inductive ColDatum (D : Type) where
  | unknown
  | string (s : String)
  | real (x : D)
  | integer (n : Int)
  | date (d : RcppDate)
  | factor (level : Int) (label : String)
deriving DecidableEq, Repr

/-- Kind of a table cell. -/
inductive ColKind where
  | unknown | string | real | integer | date | factor
deriving DecidableEq, Repr

/-- Kind of a cell value. -/
def ColDatum.kind {D : Type} : ColDatum D → ColKind
  | .unknown => .unknown
  | .string _ => .string
  | .real _ => .real
  | .integer _ => .integer
  | .date _ => .date
  | .factor _ _ => .factor

/-- A foreign value (`SEXP`), decoded once into a tagged variant (spec section
9): what the host interpreter passes to a native entry point and what the entry
point returns. -/
inductive SEXP (D : Type) where
  | null
  | closure (fn : HostFn D)
  | string (s : String)
  | real (x : D)
  | integer (n : Int)
  | date (d : RcppDate)
  | realVector (xs : List D)
  | stringVector (xs : List String)
  | dateVector (xs : List RcppDate)
  | datetimeVector (xs : List D)
  | matrix (dim1 dim2 : Nat) (rows : List (List D))
  | dataFrame (colNames : List String) (rows : List (List (ColDatum D)))
  | list (entries : List (String × SEXP D))

/-- A value registered on the protection stack by the callback invoker. -/
inductive Handle (D : Type) where
  | realVector (v : List D)
  | list (size : Nat)
  | real (x : D)
deriving DecidableEq, Repr

/-- A line written to the console by `Rprintf` or `Rcpp::Rcout`, with the
arguments of its format. -/
inductive Printed (D : Type) where
  | parsingStartDate (month day year : Int)
  | vecSum (x : D)
  | listOut (x0 x1 x2 : D)
  | seeingDates
  | seeingDatetimes
  | dateValue (d : RcppDate)
  | datetimeValue (t : D)
deriving DecidableEq, Repr

/-- An event on interpreter-owned memory whose order matters: native code
reads an element of a host result, or releases handles. -/
inductive FrameEvent (D : Type) where
  /-- An element of a host result was read through `REAL(result)[i]`, giving `x`. -/
  | read (x : D)
  /-- The listed handles, most recent first, were released. -/
  | release (handles : List (Handle D))
deriving DecidableEq, Repr

/-- State of the host interpreter that native code acts on. -/
structure World (D : Type) where
  /-- The protection stack, most recent handle first. -/
  pstack : List (Handle D)
  /-- The host function invocations made so far, oldest first. -/
  calls : List (HostArg D)
  /-- The console output so far, oldest first. -/
  out : List (Printed D)
  /-- The reads of host results and the releases of handles so far, oldest
  first. -/
  log : List (FrameEvent D)
deriving DecidableEq, Repr

/-- Native code acting on the host interpreter. -/
def Native (D α : Type) : Type := World D → Res α × World D

/-- Sequencing of native code: a throw or undefined behaviour skips the rest
and keeps the world as it was at that point. -/
def Native.bind {D α β : Type} (m : Native D α) (f : α → Native D β) : Native D β :=
  fun w =>
    match m w with
    | (.ok a, w1) => f a w1
    | (.throw e, w1) => (.throw e, w1)
    | (.undefined, w1) => (.undefined, w1)

instance {D : Type} : Monad (Native D) where
  pure a := fun w => (.ok a, w)
  bind := Native.bind

/-- Native code without effect on the host interpreter. -/
def liftRes {D α : Type} (r : Res α) : Native D α := fun w => (r, w)

/-- The statement `throw e`. -/
def throwNative {D α : Type} (e : CppException) : Native D α := fun w => (.throw e, w)

/-- Modelled from the spec: `protect(value)` of the Protected-Handle Stack
(`PROTECT(h)`, not part of src) pushes a handle on the protection stack. -/
def protect {D : Type} (h : Handle D) : Native D Unit :=
  fun w => (.ok (), { w with pstack := h :: w.pstack })

/-- Modelled from the spec: the release of the `n` most recent handles, in
reverse order of acquisition (`UNPROTECT(n)`, not part of src). The release is
recorded in the log with the handles it takes. -/
def unprotect {D : Type} (n : Nat) : Native D Unit :=
  fun w =>
    (.ok (), { w with pstack := w.pstack.drop n, log := w.log ++ [.release (w.pstack.take n)] })

/-- The read `REAL(result)[i]` of element `i` of a host result
(classicRcppExample.cpp, lines 61 and 97): unchecked, so a position past the
end is undefined behaviour; a read that succeeds is recorded. -/
def REAL {D : Type} (result : List D) (i : Nat) : Native D D :=
  fun w =>
    match uncheckedGet result i with
    | .ok x => (.ok x, { w with log := w.log ++ [.read x] })
    | .throw e => (.throw e, w)
    | .undefined => (.undefined, w)

/-- Console output: `Rprintf(...)` and `Rcpp::Rcout << ...` append a line. -/
def Rprintf {D : Type} (p : Printed D) : Native D Unit :=
  fun w => (.ok (), { w with out := w.out ++ [p] })

/-! ## Callback invoker -/

/-- Modelled from the spec: the Callback Invoker base class `RcppFunction`
(spec 4.6), which is not part of src. It wraps the host function and records
how many handles it has put on the protection stack since it was last
cleared. -/
structure RcppFunction (D : Type) where
  fn : HostFn D
  numProtected : Nat
  vectorArg : Option (List D)
  listSize : Nat
  listArg : List (String × D)

/-- Modelled from the spec: the state of a Callback Invoker (the absent
`RcppFunction`) that has just wrapped a host function: nothing is protected and
no argument is set. -/
def RcppFunction.wrap {D : Type} (fn : HostFn D) : RcppFunction D :=
  { fn := fn, numProtected := 0, vectorArg := none, listSize := 0, listArg := [] }

/-- Modelled from the spec: `create(functionHandle)` of the Callback Invoker
(the constructor of the absent `RcppFunction`) wraps a host-supplied function
reference; a foreign value of another kind is a `TypeMismatch`. -/
def RcppFunction.create {D : Type} (fn : SEXP D) : Res (RcppFunction D) :=
  match fn with
  | .closure f => .ok (RcppFunction.wrap f)
  | _ => .throw (.stdException .typeMismatch "TypeMismatch: function expected")

/-- Modelled from the spec: `setRVector` of the absent `RcppFunction` packs a
native sequence of reals into a single foreign vector argument and protects
it. -/
def RcppFunction.setRVector {D : Type} (self : RcppFunction D) (v : List D) :
    Native D (RcppFunction D) := do
  protect (.realVector v)
  return { self with vectorArg := some v, numProtected := self.numProtected + 1 }

/-- Modelled from the spec: the host invocation shared by both calling
conventions of the absent `RcppFunction`. The call is synchronous; if it raises
inside the host interpreter the call fails with `CallbackError` wrapping the
cause. -/
def invokeHost {D : Type} (fn : HostFn D) (arg : HostArg D) : Native D (List D) :=
  fun w =>
    let w1 := { w with calls := w.calls ++ [arg] }
    match fn arg with
    | .ok result => (.ok result, w1)
    | .error cause => (.throw (.stdException .callbackError cause), w1)

/-- Modelled from the spec: `vectorCall` of the absent `RcppFunction` invokes
the host function on the vector argument set before. -/
def RcppFunction.vectorCall {D : Type} (self : RcppFunction D) :
    Native D (List D × RcppFunction D) := do
  match self.vectorArg with
  | none => throwNative (.stdException .callbackError "CallbackError: vector has not been set")
  | some v =>
    let result ← invokeHost self.fn (.vector v)
    return (result, { self with vectorArg := none })

/-- Modelled from the spec: `setRListSize` of the absent `RcppFunction` starts
a foreign named structure of the given size and protects it. -/
def RcppFunction.setRListSize {D : Type} (self : RcppFunction D) (n : Nat) :
    Native D (RcppFunction D) := do
  protect (.list n)
  return { self with listSize := n, listArg := [], numProtected := self.numProtected + 1 }

/-- Modelled from the spec: `appendToRList` of the absent `RcppFunction` adds
the next (name, scalar) pair, in call order, protecting the scalar; it fails
with `IndexOutOfRange` when the structure is full. -/
def RcppFunction.appendToRList {D : Type} (self : RcppFunction D) (name : String) (value : D) :
    Native D (RcppFunction D) := do
  if self.listArg.length < self.listSize then
    protect (.real value)
    return { self with listArg := self.listArg ++ [(name, value)],
                       numProtected := self.numProtected + 1 }
  else
    throwNative (.stdException .indexOutOfRange "IndexOutOfRange: list position out of range")

/-- Modelled from the spec: `listCall` of the absent `RcppFunction` invokes the
host function on the named structure built before. -/
def RcppFunction.listCall {D : Type} (self : RcppFunction D) :
    Native D (List D × RcppFunction D) := do
  let result ← invokeHost self.fn (.namedList self.listArg)
  return (result, { self with listSize := 0, listArg := [] })

/-- Modelled from the spec: `clearProtectionStack` of the absent
`RcppFunction` releases the handles this object contributed. -/
def RcppFunction.clearProtectionStack {D : Type} (self : RcppFunction D) :
    Native D (RcppFunction D) := do
  unprotect self.numProtected
  return { self with numProtected := 0 }

/-- Constructor `MyRVectorFunc(SEXP fn) : RcppFunction(fn) {}`
(classicRcppExample.cpp, line 38). -/
def MyRVectorFunc {D : Type} (fn : SEXP D) : Res (RcppFunction D) := RcppFunction.create fn

/-- Constructor `MyRListFunc(SEXP fn) : RcppFunction(fn) {}`
(classicRcppExample.cpp, line 80). -/
def MyRListFunc {D : Type} (fn : SEXP D) : Res (RcppFunction D) := RcppFunction.create fn

/-- Method `MyRVectorFunc::getSum` (classicRcppExample.cpp, lines 42-68). Returns the
value and the object as the call leaves it. -/
def getSum {D : Type} (self : RcppFunction D) (v : List D) :
    Native D (D × RcppFunction D) := do
  let self ← self.setRVector v
  let (result, self) ← self.vectorCall
  let value ← REAL result 0
  let self ← self.clearProtectionStack
  return (value, self)

/-- Method `MyRListFunc::addOne` (classicRcppExample.cpp, lines 81-103). Returns
the vector and the object as the call leaves it. -/
def addOne {D : Type} [IntCast D] (self : RcppFunction D) (alpha beta gamma : D) :
    Native D (List D × RcppFunction D) := do
  let self ← self.setRListSize 3
  let self ← self.appendToRList "alpha" alpha
  let self ← self.appendToRList "beta" beta
  let self ← self.appendToRList "gamma" gamma
  let (result, self) ← self.listCall
  let vec : List D := List.replicate result.length ((0 : Int) : D)
  let vec ← forLoop
    (fun i vec => do
      let x ← REAL result i
      liftRes (uncheckedSet vec i x))
    result.length 0 vec
  let self ← self.clearProtectionStack
  return (vec, self)

/-! ## Typed views, parameter bundle, table and result set -/

/-- Type mismatch at a decoding constructor. -/
def typeMismatch {α : Type} (expected : String) : Res α :=
  .throw (.stdException .typeMismatch ("TypeMismatch: " ++ expected ++ " expected"))

/-- Modelled from the spec: the Parameter Bundle Reader `RcppParams` (spec
4.4), which is not part of src: the (name, value) entries of the host
structure. -/
structure RcppParams (D : Type) where
  entries : List (String × SEXP D)

/-- Modelled from the spec: `create(bundleHandle)` of the Parameter Bundle
Reader decodes a host associative structure. -/
def RcppParams.create {D : Type} (params : SEXP D) : Res (RcppParams D) :=
  match params with
  | .list entries => .ok ⟨entries⟩
  | _ => typeMismatch "named list"

/-- Failure of a getter on an absent name. -/
def missingField {α : Type} (name : String) : Res α :=
  .throw (.stdException .missingField ("MissingField: " ++ name))

/-- Modelled from the spec: `getString(name)` of the Parameter Bundle Reader:
`MissingField` if absent, `TypeMismatch` if of the wrong kind, else the decoded
value; the first entry of that name is the one read. -/
def RcppParams.getStringValue {D : Type} (self : RcppParams D) (name : String) : Res String :=
  match self.entries.lookup name with
  | none => missingField name
  | some (.string s) => .ok s
  | some _ => typeMismatch "string"

/-- Modelled from the spec: `getReal(name)` of the Parameter Bundle Reader;
widening an integer to a real is permitted. -/
def RcppParams.getDoubleValue {D : Type} [IntCast D] (self : RcppParams D) (name : String) :
    Res D :=
  match self.entries.lookup name with
  | none => missingField name
  | some (.real x) => .ok x
  | some (.integer n) => .ok (n : D)
  | some _ => typeMismatch "real"

/-- Modelled from the spec: `getInt(name)` of the Parameter Bundle Reader; a
real is not narrowed to an integer. -/
def RcppParams.getIntValue {D : Type} (self : RcppParams D) (name : String) : Res Int :=
  match self.entries.lookup name with
  | none => missingField name
  | some (.integer n) => .ok n
  | some _ => typeMismatch "integer"

/-- Modelled from the spec: `getDate(name)` of the Parameter Bundle Reader. -/
def RcppParams.getDateValue {D : Type} (self : RcppParams D) (name : String) : Res RcppDate :=
  match self.entries.lookup name with
  | none => missingField name
  | some (.date d) => .ok d
  | some _ => typeMismatch "date"

/-- Modelled from the spec: the Typed View constructor `RcppDateVector(SEXP)`,
not part of src. -/
def RcppDateVector.create {D : Type} (vec : SEXP D) : Res (List RcppDate) :=
  match vec with
  | .dateVector xs => .ok xs
  | _ => typeMismatch "date vector"

/-- Modelled from the spec: the Typed View constructor
`RcppDatetimeVector(SEXP)`, not part of src. -/
def RcppDatetimeVector.create {D : Type} (vec : SEXP D) : Res (List D) :=
  match vec with
  | .datetimeVector xs => .ok xs
  | _ => typeMismatch "datetime vector"

/-- Modelled from the spec: the Typed View constructor `RcppStringVector(SEXP)`,
not part of src. -/
def RcppStringVector.create {D : Type} (vec : SEXP D) : Res (List String) :=
  match vec with
  | .stringVector xs => .ok xs
  | _ => typeMismatch "string vector"

/-- Modelled from the spec: the Typed View constructor
`RcppVector<double>(SEXP)`, not part of src. -/
def RcppVector.create {D : Type} (vec : SEXP D) : Res (List D) :=
  match vec with
  | .realVector xs => .ok xs
  | _ => typeMismatch "numeric vector"

/-- Modelled from the spec: one entry of the named numeric list read by the
absent class `RcppNumList`; an integer is widened to a real. -/
def RcppNumList.item {D : Type} [IntCast D] : String × SEXP D → Res (String × D)
  | (name, .real x) => .ok (name, x)
  | (name, .integer n) => .ok (name, (n : D))
  | _ => typeMismatch "numeric list entry"

/-- Modelled from the spec: the entries of the named numeric list, decoded in
order (part of the absent class `RcppNumList`). -/
def RcppNumList.decode {D : Type} [IntCast D] :
    List (String × SEXP D) → Res (List (String × D))
  | [] => .ok []
  | entry :: rest => do
    let item ← RcppNumList.item entry
    let items ← RcppNumList.decode rest
    return item :: items

/-- Modelled from the spec: the constructor `RcppNumList(SEXP)`, not part of
src, decoding a named list of numbers. -/
def RcppNumList.create {D : Type} [IntCast D] (nlist : SEXP D) : Res (List (String × D)) :=
  match nlist with
  | .list entries => RcppNumList.decode entries
  | _ => typeMismatch "named list"

/-- Modelled from the spec: the bounds-checked `RcppNumList::getName(i)` of the
absent class. -/
def RcppNumList.getName {D : Type} (self : List (String × D)) (i : Nat) : Res String := do
  let item ← checkedGet self i
  return item.1

/-- Modelled from the spec: the bounds-checked `RcppNumList::getValue(i)` of the
absent class. -/
def RcppNumList.getValue {D : Type} (self : List (String × D)) (i : Nat) : Res D := do
  let item ← checkedGet self i
  return item.2

/-- Modelled from the spec: the Typed View `RcppMatrix<double>`, not part of
src: the two dimensions and the rows. -/
structure RcppMatrix (D : Type) where
  dim1 : Nat
  dim2 : Nat
  a : List (List D)

/-- Failure of a bounds-checked matrix access. -/
def subscriptOutOfRange {α : Type} : Res α :=
  .throw (.stdException .indexOutOfRange "IndexOutOfRange: subscripts out of range")

/-- Modelled from the spec: the Typed View constructor
`RcppMatrix<double>(SEXP)`, not part of src: `TypeMismatch` for another kind of
value, `ShapeError` if the rows do not have the declared dimensions. -/
def RcppMatrix.create {D : Type} (mat : SEXP D) : Res (RcppMatrix D) :=
  match mat with
  | .matrix dim1 dim2 rows =>
    if rows.length = dim1 ∧ ∀ row ∈ rows, row.length = dim2 then
      .ok { dim1 := dim1, dim2 := dim2, a := rows }
    else .throw (.stdException .shapeError "ShapeError: inconsistent matrix dimensions")
  | _ => typeMismatch "numeric matrix"

/-- Modelled from the spec: the bounds-checked read `matD(i,j)` of the absent
class `RcppMatrix`. -/
def RcppMatrix.get {D : Type} (self : RcppMatrix D) (i j : Nat) : Res D :=
  if i < self.dim1 ∧ j < self.dim2 then do
    let row ← uncheckedGet self.a i
    uncheckedGet row j
  else subscriptOutOfRange

/-- Modelled from the spec: the bounds-checked write `matD(i,j) = x` of the
absent class `RcppMatrix`. -/
def RcppMatrix.set {D : Type} (self : RcppMatrix D) (i j : Nat) (x : D) : Res (RcppMatrix D) :=
  if i < self.dim1 ∧ j < self.dim2 then do
    let row ← uncheckedGet self.a i
    let row ← uncheckedSet row j x
    let a ← uncheckedSet self.a i row
    return { self with a := a }
  else subscriptOutOfRange

/-- Modelled from the spec: the Column-Typed Table `RcppFrame` (spec 4.2), not
part of src: the column names and the rows added so far. -/
structure RcppFrame (D : Type) where
  colNames : List String
  table : List (List (ColDatum D))

/-- Modelled from the spec: `create(columnNames)` of the Column-Typed Table: an
empty table with the given column order. -/
def RcppFrame.create {D : Type} (colNames : List String) : RcppFrame D :=
  { colNames := colNames, table := [] }

/-- Modelled from the spec: `addRow(values)` of the Column-Typed Table: the
first row fixes each column's kind; `ColumnCountMismatch` on a row of another
length, `ColumnTypeMismatch` on a kind that disagrees with the first row. -/
def RcppFrame.addRow {D : Type} (self : RcppFrame D) (row : List (ColDatum D)) :
    Res (RcppFrame D) :=
  if row.length ≠ self.colNames.length then
    .throw (.stdException .columnCountMismatch "ColumnCountMismatch: wrong number of values")
  else
    match self.table with
    | [] => .ok { self with table := [row] }
    | first :: _ =>
      if row.map ColDatum.kind = first.map ColDatum.kind then
        .ok { self with table := self.table ++ [row] }
      else
        .throw (.stdException .columnTypeMismatch "ColumnTypeMismatch: kind differs from row 1")

/-- Modelled from the spec: construction of a Column-Typed Table from a foreign
tabular value (`RcppFrame(SEXP)`, not part of src), row by row. -/
def RcppFrame.ofSEXP {D : Type} (df : SEXP D) : Res (RcppFrame D) :=
  match df with
  | .dataFrame colNames rows =>
    rows.foldlM (fun frame row => frame.addRow row) (RcppFrame.create colNames)
  | _ => typeMismatch "data frame"

/-- Modelled from the spec: the Result Aggregator `RcppResultSet` (spec 4.5),
not part of src: the named values added so far, in insertion order. -/
structure RcppResultSet (D : Type) where
  values : List (String × SEXP D)
  finalized : Bool

/-- Modelled from the spec: a new, empty Result Aggregator (`RcppResultSet rs;`). -/
def RcppResultSet.empty {D : Type} : RcppResultSet D := { values := [], finalized := false }

/-- Modelled from the spec: `add(name, value)` of the Result Aggregator appends
a named value; after `finalize()` it fails with `AlreadyFinalized`. -/
def RcppResultSet.add {D : Type} (self : RcppResultSet D) (name : String) (value : SEXP D) :
    Res (RcppResultSet D) :=
  if self.finalized then
    .throw (.stdException .alreadyFinalized "AlreadyFinalized: result set already finalized")
  else .ok { self with values := self.values ++ [(name, value)] }

/-- Modelled from the spec: `finalize()` of the Result Aggregator
(`getReturnList`): one ordered and named compound value with the added entries
in insertion order. -/
def RcppResultSet.getReturnList {D : Type} (self : RcppResultSet D) :
    SEXP D × RcppResultSet D :=
  (.list self.values, { self with finalized := true })

/-- Modelled from the spec: the value added by `add(name, vector<vector<double>>&)`
of the absent Result Aggregator: a matrix with as many rows as the container and
as many columns as its first row; `ShapeError` if the rows are not
rectangular. -/
def SEXP.ofStlMatrix {D : Type} (mat : List (List D)) : Res (SEXP D) :=
  let ncols := (mat.head?.map List.length).getD 0
  if ∀ row ∈ mat, row.length = ncols then .ok (.matrix mat.length ncols mat)
  else .throw (.stdException .shapeError "ShapeError: rows of different length")

/-- Modelled from the spec: the unchecked raw-pointer read of `len` elements
made by `add(name, double*, int)` of the absent Result Aggregator. -/
def readArray {α : Type} (p : List α) (len : Nat) : Res (List α) :=
  if len ≤ p.length then .ok (p.take len) else .undefined

/-- Modelled from the spec: the unchecked raw-pointer read of `ncols` elements
of each row made by `add(name, double**, int, int)` of the absent Result
Aggregator. -/
def readRows {α : Type} : List (List α) → Nat → Res (List (List α))
  | [], _ => .ok []
  | row :: rest, ncols => do
    let r ← readArray row ncols
    let rs ← readRows rest ncols
    return r :: rs

/-- Modelled from the spec: the value added by `add(name, double**, int, int)`
of the absent Result Aggregator: `nrows` by `ncols` elements read through the
raw pointer, without bounds checks. -/
def SEXP.ofCMatrix {D : Type} (a : List (List D)) (nrows ncols : Nat) : Res (SEXP D) := do
  let rows ← readArray a nrows
  let rows ← readRows rows ncols
  return .matrix nrows ncols rows

/-- Modelled from the spec: the value added by `add(name, double*, int)` of the
absent Result Aggregator. -/
def SEXP.ofCVector {D : Type} (v : List D) (len : Nat) : Res (SEXP D) := do
  let xs ← readArray v len
  return .realVector xs

/-! ## The entry points -/

/-- How a call of a native entry point ends for the host interpreter: with the
returned value, with the host-visible error raised by `Rf_error`, or not at all
in a defined way. -/
inductive Outcome (D : Type) where
  | returned (rl : SEXP D)
  | error (message : String)
  | undefined

/-- Modelled from the spec: `copyMessageToR` (not part of src) copies the
message text for the host interpreter. -/
def copyMessageToR (mesg : String) : String := mesg

/-- Lines 310-313 of classicRcppExample.cpp (60-63 of
classicRcppDateExample.cpp): `if (exceptionMesg != NULL) Rf_error("%s",
exceptionMesg); return rl;`. `Rf_error` does not return. -/
def raiseOrReturn {D : Type} (rl : SEXP D) (exceptionMesg : Option String) (w : World D) :
    Outcome D × World D :=
  match exceptionMesg with
  | some mesg => (.error mesg, w)
  | none => (.returned rl, w)

/-- The boundary both entry points install around their `try` block
(classicRcppExample.cpp lines 114-117 and 304-313, classicRcppDateExample.cpp
lines 27-30 and 54-63): `rl` starts as `R_NilValue` and `exceptionMesg` as
`NULL`; the block assigns `rl` in its last statement;
`catch(std::exception& ex)` keeps `ex.what()` and `catch(...)` keeps
"unknown reason". Undefined behaviour inside the block is not an exception and
is not caught. -/
def hostBoundary {D : Type} (r : Res (SEXP D) × World D) : Outcome D × World D :=
  match r with
  | (.ok rl, w1) => raiseOrReturn rl none w1
  | (.throw (.stdException _ what), w1) => raiseOrReturn .null (some (copyMessageToR what)) w1
  | (.throw .other, w1) => raiseOrReturn .null (some (copyMessageToR "unknown reason")) w1
  | (.undefined, w1) => (.undefined, w1)

section EntryPoints

variable {D : Type} [Add D] [Mul D] [IntCast D] [OfScientific D]

/-- The `try` block of `Rcpp_Example` (classicRcppExample.cpp, lines 119-302);
its value is the `rl` assigned by the last statement. -/
def Rcpp_Example.tryBlock (params nlist numvec nummat df datevec stringvec fnvec fnlist : SEXP D) :
    Native D (SEXP D) := do
  -- lines 122-126
  let rparam ← liftRes (RcppParams.create params)
  let method ← liftRes (rparam.getStringValue "method")
  let tolerance ← liftRes (rparam.getDoubleValue "tolerance")
  let maxIter ← liftRes (rparam.getIntValue "maxIter")
  let startDate ← liftRes (rparam.getDateValue "startDate")
  -- lines 129-132
  Rprintf (.parsingStartDate startDate.getMonth startDate.getDay startDate.getYear)
  -- lines 138-157
  let dateVec ← liftRes (RcppDateVector.create datevec)
  let stringVec ← liftRes (RcppStringVector.create stringvec)
  let nl ← liftRes (RcppNumList.create nlist)
  let vecD ← liftRes (RcppVector.create numvec)
  let matD ← liftRes (RcppMatrix.create nummat)
  -- lines 160-164
  let nrows := matD.dim1
  let ncols := matD.dim2
  let matD ← liftRes (forLoop (fun i matD =>
    forLoop (fun j (matD : RcppMatrix D) => do
      let x ← matD.get i j
      matD.set i j (((2 : Int) : D) * x)) ncols 0 matD) nrows 0 matD)
  -- lines 166-168
  let len := vecD.length
  let vecD ← liftRes (forLoop (fun i vecD => do
    let x ← checkedGet vecD i
    checkedSet vecD i (((3 : Int) : D) * x)) len 0 vecD)
  -- lines 173-174: copies in unchecked format
  let a := matD.a
  let v := vecD
  -- lines 177-180
  let stlvec := vecD
  let nrows := stlvec.length
  let stlvec ← liftRes (forLoop (fun i stlvec => do
    let x ← uncheckedGet stlvec i
    uncheckedSet stlvec i (x + ((1 : Int) : D))) nrows 0 stlvec)
  -- lines 183-188
  let stlmat := matD.a
  let nrows := stlmat.length
  let row0 ← liftRes (uncheckedGet stlmat 0)
  let ncols := row0.length
  let stlmat ← liftRes (forLoop (fun i stlmat =>
    forLoop (fun j (stlmat : List (List D)) => do
      let row ← uncheckedGet stlmat i
      let x ← uncheckedGet row j
      let row ← uncheckedSet row j (x + ((2 : Int) : D))
      uncheckedSet stlmat i row) ncols 0 stlmat) nrows 0 stlmat)
  -- lines 194-196
  let svec : List String := List.replicate 2 ""
  let svec ← liftRes (uncheckedSet svec 0 "hello")
  let svec ← liftRes (uncheckedSet svec 1 "world")
  -- line 199
  let inframe ← liftRes (RcppFrame.ofSEXP df)
  -- lines 236-241
  let numCol := 3
  let colNames : List String := List.replicate numCol ""
  let colNames ← liftRes (uncheckedSet colNames 0 "alpha")
  let colNames ← liftRes (uncheckedSet colNames 1 "beta")
  let colNames ← liftRes (uncheckedSet colNames 2 "gamma")
  let frame : RcppFrame D := RcppFrame.create colNames
  -- lines 244-248
  let row1 : List (ColDatum D) := List.replicate numCol .unknown
  let row1 ← liftRes (uncheckedSet row1 0 (.string "a"))
  let row1 ← liftRes (uncheckedSet row1 1 (.real 3.14))
  let row1 ← liftRes (uncheckedSet row1 2 (.date (RcppDate.ofMDY 7 4 2006)))
  let frame ← liftRes (frame.addRow row1)
  -- lines 251-255
  let row2 : List (ColDatum D) := List.replicate numCol .unknown
  let row2 ← liftRes (uncheckedSet row2 0 (.string "b"))
  let row2 ← liftRes (uncheckedSet row2 1 (.real 6.28))
  let row2 ← liftRes (uncheckedSet row2 2 (.date (RcppDate.ofMDY 12 25 2006)))
  let frame ← liftRes (frame.addRow row2)
  -- lines 258-264
  let vfunc ← liftRes (MyRVectorFunc fnvec)
  let n := 10
  let vecInput : List D := List.replicate n ((0 : Int) : D)
  let vecInput ← liftRes (forLoop (fun i vecInput =>
    uncheckedSet vecInput i (((i : Int) : D))) n 0 vecInput)
  let (vecSum, _) ← getSum vfunc vecInput
  Rprintf (.vecSum vecSum)
  -- lines 267-270
  let lfunc ← liftRes (MyRListFunc fnlist)
  let alpha : D := ((1 : Int) : D)
  let beta : D := ((2 : Int) : D)
  let gamma : D := ((3 : Int) : D)
  let (vecOut, _) ← addOne lfunc alpha beta gamma
  let out0 ← liftRes (uncheckedGet vecOut 0)
  let out1 ← liftRes (uncheckedGet vecOut 1)
  let out2 ← liftRes (uncheckedGet vecOut 2)
  Rprintf (.listOut out0 out1 out2)
  -- line 272
  let aDate := RcppDate.ofMDY 12 25 1999
  -- lines 275-298
  let rs : RcppResultSet D := RcppResultSet.empty
  let rs ← liftRes (rs.add "date" (.date aDate))
  let rs ← liftRes (rs.add "dateVec" (.dateVector dateVec))
  let rs ← liftRes (rs.add "method" (.string method))
  let rs ← liftRes (rs.add "tolerance" (.real tolerance))
  let rs ← liftRes (rs.add "maxIter" (.integer maxIter))
  let nlFirstName ← liftRes (RcppNumList.getName nl 0)
  let rs ← liftRes (rs.add "nlFirstName" (.string nlFirstName))
  let nlFirstValue ← liftRes (RcppNumList.getValue nl 0)
  let rs ← liftRes (rs.add "nlFirstValue" (.real nlFirstValue))
  let rs ← liftRes (rs.add "matD" (.matrix matD.dim1 matD.dim2 matD.a))
  let rs ← liftRes (rs.add "stlvec" (.realVector stlvec))
  let stlmatValue ← liftRes (SEXP.ofStlMatrix stlmat)
  let rs ← liftRes (rs.add "stlmat" stlmatValue)
  let aValue ← liftRes (SEXP.ofCMatrix a nrows ncols)
  let rs ← liftRes (rs.add "a" aValue)
  let vValue ← liftRes (SEXP.ofCVector v len)
  let rs ← liftRes (rs.add "v" vValue)
  let rs ← liftRes (rs.add "stringVec" (.stringVector stringVec))
  let rs ← liftRes (rs.add "strings" (.stringVector svec))
  let rs ← liftRes (rs.add "InputDF" (.dataFrame inframe.colNames inframe.table))
  let rs ← liftRes (rs.add "PreDF" (.dataFrame frame.colNames frame.table))
  let rs ← liftRes (rs.add "params" params)
  -- line 302
  let (rl, _) := rs.getReturnList
  return rl

/-- Entry point `Rcpp_Example` (classicRcppExample.cpp, lines 109-314): the `try` block
inside the boundary of lines 114-117 and 304-313. -/
def Rcpp_Example (params nlist numvec nummat df datevec stringvec fnvec fnlist : SEXP D) :
    World D → Outcome D × World D := fun w =>
  hostBoundary
    (Rcpp_Example.tryBlock params nlist numvec nummat df datevec stringvec fnvec fnlist w)

/-- The `try` block of `classicRcppDateExample` (classicRcppDateExample.cpp,
lines 32-52). -/
def classicRcppDateExample.tryBlock (dvsexp dtvsexp : SEXP D) : Native D (SEXP D) := do
  let dv ← liftRes (RcppDateVector.create dvsexp)
  let dtv ← liftRes (RcppDatetimeVector.create dtvsexp)
  Rprintf .seeingDates
  let dv ← forLoop (fun i dv => do
    let d ← liftRes (checkedGet dv i)
    Rprintf (.dateValue d)
    let d ← liftRes (checkedGet dv i)
    liftRes (checkedSet dv i (d + (7 : Int)))) dv.length 0 dv
  Rprintf .seeingDatetimes
  let dtv ← forLoop (fun i dtv => do
    let t ← liftRes (checkedGet dtv i)
    Rprintf (.datetimeValue t)
    let t ← liftRes (checkedGet dtv i)
    liftRes (checkedSet dtv i (t + (0.250 : D)))) dtv.length 0 dtv
  let rs : RcppResultSet D := RcppResultSet.empty
  let rs ← liftRes (rs.add "date" (.dateVector dv))
  let rs ← liftRes (rs.add "datetime" (.datetimeVector dtv))
  let (rl, _) := rs.getReturnList
  return rl

/-- Entry point `classicRcppDateExample` (classicRcppDateExample.cpp, lines 25-64): the
`try` block inside the boundary of lines 27-30 and 54-63. -/
def classicRcppDateExample (dvsexp dtvsexp : SEXP D) : World D → Outcome D × World D := fun w =>
  hostBoundary (classicRcppDateExample.tryBlock dvsexp dtvsexp w)

/-- The vector `vecInput` that lines 259-262 of `Rcpp_Example` build:
`0, 1, ..., 9`. -/
def Rcpp_Example.vecInput : List D := (List.range 10).map (fun i => (((i : Nat) : Int) : D))

/-- The named list that `addOne(alpha, beta, gamma)` of line 269 packs, with
`alpha = 1`, `beta = 2`, `gamma = 3`. -/
def Rcpp_Example.listArg : List (String × D) :=
  [("alpha", ((1 : Int) : D)), ("beta", ((2 : Int) : D)), ("gamma", ((3 : Int) : D))]

end EntryPoints

/-- The names of the entries `Rcpp_Example` adds to its result set, in the
order of the `rs.add` calls of lines 277-298. -/
def Rcpp_Example.entryNames : List String :=
  ["date", "dateVec", "method", "tolerance", "maxIter", "nlFirstName", "nlFirstValue",
   "matD", "stlvec", "stlmat", "a", "v", "stringVec", "strings", "InputDF", "PreDF",
   "params"]

/-! ## Running native code: what a block guarantees -/

/-- What a value-level computation guarantees: `Q` of the value it returns, and
`U` if its behaviour is undefined. A thrown exception promises nothing. -/
def Res.Sat {α : Type} (r : Res α) (Q : α → Prop) (U : Prop) : Prop :=
  match r with
  | .ok a => Q a
  | .throw _ => True
  | .undefined => U

/-- What native code guarantees from every world: `Q` of the value it returns,
and `U` if its behaviour is undefined. With `U := False` this is the absence of
undefined behaviour; with `U := True` it speaks of the returning runs only. -/
def Native.Sat {D α : Type} (m : Native D α) (Q : α → Prop) (U : Prop) : Prop :=
  ∀ w, (m w).1.Sat Q U

/-! ## Scenario of the specification (section 8) -/

/-- Host function "sum of elements". -/
def sumOfElements : HostFn ℚ
  | .vector v => .ok [v.sum]
  | .namedList items => .ok [(items.map Prod.snd).sum]

/-- Host function "add 1 to each". -/
def addOneToEach : HostFn ℚ
  | .vector v => .ok (v.map (fun x => x + 1))
  | .namedList items => .ok (items.map (fun item => item.2 + 1))

/-- A host function whose invocation raises an error in the host
interpreter. -/
def failingHostFn : HostFn ℚ := fun _ => .error "error in host function"

/-- The parameter bundle of the scenario:
`{method: "secant", tolerance: 0.0001, maxIter: 100, startDate: 1999-12-25}`. -/
def scenarioParams : List (String × SEXP ℚ) :=
  [("method", .string "secant"), ("tolerance", .real 0.0001), ("maxIter", .integer 100),
   ("startDate", .date (RcppDate.ofMDY 12 25 1999))]

/-- A world with an empty protection stack and nothing printed or called. -/
def emptyWorld : World ℚ := { pstack := [], calls := [], out := [], log := [] }

/-- A world in which the caller already protects two values. -/
def callerWorld : World ℚ :=
  { pstack := [.real 7, .list 2], calls := [], out := [], log := [] }

/-- The scenario run of `Rcpp_Example` on a given matrix argument and the two
host functions; the other arguments are a two-entry numeric list, the vector
`1, 2, 3`, a two-row data frame, one date and two strings. -/
def scenarioRun (nummat fnvec fnlist : SEXP ℚ) : Outcome ℚ × World ℚ :=
  Rcpp_Example (.list scenarioParams)
    (.list [("ibm", .real 80.5), ("hp", .real 53.64)])
    (.realVector [1, 2, 3]) nummat
    (.dataFrame ["x", "y"] [[.integer 1, .string "a"], [.integer 2, .string "b"]])
    (.dateVector [RcppDate.ofMDY 1 1 2000]) (.stringVector ["a", "b"]) fnvec fnlist emptyWorld

/-- The 2 by 3 matrix of the scenario run. -/
def scenarioMatrix : SEXP ℚ := .matrix 2 3 [[1, 2, 3], [4, 5, 6]]

/-- A host function that returns an empty vector. -/
def emptyResultFn : HostFn ℚ := fun _ => .ok []

/-- The two ways in which a call of an entry point may end, given what its
`try` block did: the block completed and its list is returned, or the block
threw and one error is raised, with the text of the `std::exception` or, for
any other thrown object, with "unknown reason". -/
def ReturnsOrRaises {D : Type} (block : Res (SEXP D) × World D)
    (outcome : Outcome D × World D) : Prop :=
  (∃ rl w1, block = (.ok rl, w1) ∧ outcome = (.returned rl, w1)) ∨
  (∃ kind what w1, block = (.throw (.stdException kind what), w1) ∧
    outcome = (.error what, w1)) ∨
  (∃ w1, block = (.throw .other, w1) ∧ outcome = (.error "unknown reason", w1))

/-! ## Evaluation lemmas -/

@[simp] theorem native_pure_apply {D α : Type} (a : α) (w : World D) :
    (pure a : Native D α) w = (.ok a, w) := id rfl

@[simp] theorem native_bind_apply {D α β : Type} (m : Native D α) (f : α → Native D β)
    (w : World D) :
    (m >>= f) w =
      match m w with
      | (.ok a, w1) => f a w1
      | (.throw e, w1) => (.throw e, w1)
      | (.undefined, w1) => (.undefined, w1) := id rfl

@[simp] theorem liftRes_apply {D α : Type} (r : Res α) (w : World D) :
    liftRes r w = (r, w) := id rfl

@[simp] theorem Rprintf_apply {D : Type} (p : Printed D) (w : World D) :
    Rprintf p w = (.ok (), { w with out := w.out ++ [p] }) := id rfl

@[simp] theorem res_pure_eq {α : Type} (a : α) : (pure a : Res α) = .ok a := id rfl

@[simp] theorem res_bind_ok {α β : Type} (a : α) (f : α → Res β) :
    (Res.ok a >>= f) = f a := id rfl

@[simp] theorem res_bind_throw {α β : Type} (e : CppException) (f : α → Res β) :
    (Res.throw e >>= f) = .throw e := id rfl

@[simp] theorem res_bind_undefined {α β : Type} (f : α → Res β) :
    ((Res.undefined : Res α) >>= f) = .undefined := id rfl

@[simp] theorem forLoop_zero {m : Type → Type} [Monad m] {σ : Type} (body : Nat → σ → m σ)
    (i : Nat) (s : σ) : forLoop body 0 i s = pure s := id rfl

@[simp] theorem forLoop_succ {m : Type → Type} [Monad m] {σ : Type} (body : Nat → σ → m σ)
    (count i : Nat) (s : σ) :
    forLoop body (count + 1) i s = body i s >>= forLoop body count (i + 1) := id rfl

theorem getElem?_append_cons_length {α : Type} (pre post : List α) (x : α) :
    (pre ++ x :: post)[pre.length]? = some x := by
  induction pre with
  | nil => simp
  | cons a pre ih => simpa using ih

@[simp] theorem uncheckedGet_append_cons {α : Type} (pre post : List α) (x : α) :
    uncheckedGet (pre ++ x :: post) pre.length = .ok x := by
  rw [uncheckedGet, getElem?_append_cons_length]

@[simp] theorem uncheckedSet_append_cons {α : Type} (pre post : List α) (x y : α) :
    uncheckedSet (pre ++ x :: post) pre.length y = .ok (pre ++ y :: post) := by
  simp [uncheckedSet]

@[simp] theorem checkedGet_append_cons {α : Type} (pre post : List α) (x : α) :
    checkedGet (pre ++ x :: post) pre.length = .ok x := by
  rw [checkedGet, getElem?_append_cons_length]

@[simp] theorem checkedSet_append_cons {α : Type} (pre post : List α) (x y : α) :
    checkedSet (pre ++ x :: post) pre.length y = .ok (pre ++ y :: post) := by
  simp [checkedSet]

/-- A loop whose body rewrites element `i` of a list held in the loop state
by `f` maps `f` over the elements it visits. The list, of length `n`, is seen
through `view`, and `P` is what the body needs of an element. -/
theorem forLoop_map_view {α σ : Type} (view : List α → σ) (body : Nat → σ → Res σ)
    (f : α → α) (P : α → Prop) (n : Nat)
    (h : ∀ pre x post, P x → pre.length + post.length + 1 = n →
      body pre.length (view (pre ++ x :: post)) = .ok (view (pre ++ f x :: post))) :
    ∀ (post pre : List α), (∀ x ∈ post, P x) → pre.length + post.length = n →
      forLoop body post.length pre.length (view (pre ++ post)) =
        .ok (view (pre ++ post.map f)) := by
  intro post
  induction post with
  | nil => intro pre _ _; simp
  | cons x post ih =>
    intro pre hP hn
    have hx : P x := hP x (List.mem_cons_self _ _)
    have hrest : ∀ y ∈ post, P y := fun y hy => hP y (List.mem_cons_of_mem _ hy)
    have hstep := ih (pre ++ [f x]) hrest (by simp at hn ⊢; omega)
    simp only [List.length_append, List.length_singleton, List.append_assoc,
      List.singleton_append] at hstep
    have hb := h pre x post hx (by simp at hn ⊢; omega)
    simp [hb, hstep]

/-- The same for a loop whose body also prints the element it visits. -/
theorem forLoop_map_print {D α : Type} (body : Nat → List α → Native D (List α))
    (f : α → α) (g : α → Printed D)
    (h : ∀ pre x post (w : World D),
      body pre.length (pre ++ x :: post) w =
        (.ok (pre ++ f x :: post), { w with out := w.out ++ [g x] })) :
    ∀ (post pre : List α) (w : World D),
      forLoop body post.length pre.length (pre ++ post) w =
        (.ok (pre ++ post.map f), { w with out := w.out ++ post.map g }) := by
  intro post
  induction post with
  | nil => intro pre w; simp
  | cons x post ih =>
    intro pre w
    have hstep := ih (pre ++ [f x]) { w with out := w.out ++ [g x] }
    simp only [List.length_append, List.length_singleton, List.append_assoc,
      List.singleton_append] at hstep
    simp [h pre x post w, hstep]

theorem REAL_append_cons {D : Type} (pre post : List D) (x : D) (w : World D) :
    REAL (pre ++ x :: post) pre.length w =
      (.ok x, { w with log := w.log ++ [.read x] }) := by
  simp [REAL]

/-- The copy loop `for (i...) vec[i] = REAL(result)[i]` fills the destination
with the host result, reading its elements in order. -/
theorem forLoop_copy_aux {D : Type} (post : List D) :
    ∀ (pre junk : List D) (w : World D), junk.length = post.length →
      forLoop (m := Native D) (fun i vec => do
          let x ← REAL (pre ++ post) i
          liftRes (uncheckedSet vec i x)) post.length pre.length (pre ++ junk) w =
        (.ok (pre ++ post), { w with log := w.log ++ post.map .read }) := by
  induction post with
  | nil =>
    intro pre junk w hj
    have : junk = [] := List.length_eq_zero.mp hj
    simp [this]
  | cons x post ih =>
    intro pre junk w hj
    cases junk with
    | nil => simp at hj
    | cons y junk =>
      have := ih (pre ++ [x]) junk { w with log := w.log ++ [.read x] } (by simpa using hj)
      simp only [List.length_append, List.length_singleton, List.append_assoc,
        List.singleton_append] at this
      simp [this, REAL_append_cons, liftRes]

theorem forLoop_copy {D : Type} (src : List D) (z : D) (w : World D) :
    forLoop (m := Native D) (fun i vec => do
        let x ← REAL src i
        liftRes (uncheckedSet vec i x)) src.length 0 (List.replicate src.length z) w =
      (.ok src, { w with log := w.log ++ src.map .read }) := by
  simpa using forLoop_copy_aux src [] (List.replicate src.length z) w (by simp)

/-- The loop of lines 167-168 and its unchecked twin of lines 179-180. -/
theorem forLoop_checked_map {α : Type} (f : α → α) (xs : List α) :
    forLoop (fun i v => do
        let x ← checkedGet v i
        checkedSet v i (f x)) xs.length 0 xs = .ok (xs.map f) := by
  have := forLoop_map_view (fun v => v)
    (fun i v => do
        let x ← checkedGet v i
        checkedSet v i (f x)) f (fun _ => True) xs.length
    (fun pre x post _ _ => by simp) xs [] (fun _ _ => trivial) (by simp)
  simpa using this

theorem forLoop_unchecked_map {α : Type} (f : α → α) (xs : List α) :
    forLoop (fun i v => do
        let x ← uncheckedGet v i
        uncheckedSet v i (f x)) xs.length 0 xs = .ok (xs.map f) := by
  have := forLoop_map_view (fun v => v)
    (fun i v => do
        let x ← uncheckedGet v i
        uncheckedSet v i (f x)) f (fun _ => True) xs.length
    (fun pre x post _ _ => by simp) xs [] (fun _ _ => trivial) (by simp)
  simpa using this

/-- The inner loop of lines 163-164 on row `above.length` of the matrix. -/
theorem forLoop_matrix_row {D : Type} (f : D → D) (above below : List (List D))
    (row : List D) (dim1 : Nat) (h1 : above.length < dim1) :
    forLoop (fun j (matD : RcppMatrix D) => do
        let x ← matD.get above.length j
        matD.set above.length j (f x)) row.length 0
        { dim1 := dim1, dim2 := row.length, a := above ++ row :: below } =
      .ok { dim1 := dim1, dim2 := row.length, a := above ++ row.map f :: below } := by
  have := forLoop_map_view
    (fun r => ({ dim1 := dim1, dim2 := row.length, a := above ++ r :: below } : RcppMatrix D))
    (fun j (matD : RcppMatrix D) => do
        let x ← matD.get above.length j
        matD.set above.length j (f x)) f (fun _ => True) row.length
    (fun pre x post _ hn => by
      have hlt : pre.length < row.length := by omega
      simp [RcppMatrix.get, RcppMatrix.set, h1, hlt])
    row [] (fun _ _ => trivial) (by simp)
  simpa using this

/-- The loops of lines 162-164 scale a well-shaped matrix element by element. -/
theorem forLoop_matrix_map {D : Type} (f : D → D) (rows : List (List D)) (dim2 : Nat)
    (hrows : ∀ row ∈ rows, row.length = dim2) :
    forLoop (fun i matD =>
        forLoop (fun j (matD : RcppMatrix D) => do
          let x ← matD.get i j
          matD.set i j (f x)) dim2 0 matD) rows.length 0
        { dim1 := rows.length, dim2 := dim2, a := rows } =
      .ok { dim1 := rows.length, dim2 := dim2, a := rows.map (List.map f) } := by
  have := forLoop_map_view
    (fun a => ({ dim1 := rows.length, dim2 := dim2, a := a } : RcppMatrix D))
    (fun i matD =>
        forLoop (fun j (matD : RcppMatrix D) => do
          let x ← matD.get i j
          matD.set i j (f x)) dim2 0 matD) (List.map f) (fun row => row.length = dim2)
    rows.length
    (fun pre x post hx hn => by
      subst hx
      exact forLoop_matrix_row f pre post x rows.length (by omega))
    rows [] hrows (by simp)
  simpa using this

/-- The inner loop of lines 187-188 on row `above.length` of the container. -/
theorem forLoop_stlmat_row {D : Type} (f : D → D) (above below : List (List D))
    (row : List D) :
    forLoop (fun j (stlmat : List (List D)) => do
        let r ← uncheckedGet stlmat above.length
        let x ← uncheckedGet r j
        let r ← uncheckedSet r j (f x)
        uncheckedSet stlmat above.length r) row.length 0 (above ++ row :: below) =
      .ok (above ++ row.map f :: below) := by
  have := forLoop_map_view
    (fun r => above ++ r :: below)
    (fun j (stlmat : List (List D)) => do
        let r ← uncheckedGet stlmat above.length
        let x ← uncheckedGet r j
        let r ← uncheckedSet r j (f x)
        uncheckedSet stlmat above.length r) f (fun _ => True) row.length
    (fun pre x post _ _ => by simp)
    row [] (fun _ _ => trivial) (by simp)
  simpa using this

/-- The loops of lines 186-188 update a rectangular container element by
element. -/
theorem forLoop_stlmat_map {D : Type} (f : D → D) (rows : List (List D)) (ncols : Nat)
    (hrows : ∀ row ∈ rows, row.length = ncols) :
    forLoop (fun i stlmat =>
        forLoop (fun j (stlmat : List (List D)) => do
          let r ← uncheckedGet stlmat i
          let x ← uncheckedGet r j
          let r ← uncheckedSet r j (f x)
          uncheckedSet stlmat i r) ncols 0 stlmat) rows.length 0 rows =
      .ok (rows.map (List.map f)) := by
  have := forLoop_map_view (fun a => a)
    (fun i stlmat =>
        forLoop (fun j (stlmat : List (List D)) => do
          let r ← uncheckedGet stlmat i
          let x ← uncheckedGet r j
          let r ← uncheckedSet r j (f x)
          uncheckedSet stlmat i r) ncols 0 stlmat) (List.map f) (fun row => row.length = ncols)
    rows.length
    (fun pre x post hx _ => by
      subst hx
      exact forLoop_stlmat_row f pre post x)
    rows [] hrows (by simp)
  simpa using this

/-! ## Guarantees of blocks -/

theorem nativeSat_bind {D α β : Type} {m : Native D α} {f : α → Native D β}
    {P : α → Prop} {Q : β → Prop} {U : Prop}
    (h : m.Sat P U) (hf : ∀ a, P a → (f a).Sat Q U) : (m >>= f).Sat Q U := by
  intro w
  have hw := h w
  rw [native_bind_apply]
  rcases hmw : m w with ⟨r, w1⟩
  rw [hmw] at hw
  cases r with
  | ok a => exact hf a hw w1
  | throw e => trivial
  | undefined => exact hw

theorem nativeSat_pure {D α : Type} {a : α} {Q : α → Prop} {U : Prop} (h : Q a) :
    (pure a : Native D α).Sat Q U := fun _ => h

theorem nativeSat_liftRes {D α : Type} {r : Res α} {Q : α → Prop} {U : Prop}
    (h : r.Sat Q U) : (liftRes r : Native D α).Sat Q U := fun _ => h

theorem nativeSat_Rprintf {D : Type} {p : Printed D} {Q : Unit → Prop} {U : Prop}
    (h : Q ()) : (Rprintf p).Sat Q U := fun _ => h

/-! ## The callback wrappers and the valid run of `Rcpp_Example` -/

theorem vecInput_loop {D : Type} [IntCast D] :
    forLoop (fun i (vecInput : List D) => uncheckedSet vecInput i (((i : Int) : D))) 10 0
      (List.replicate 10 ((0 : Int) : D)) = .ok Rcpp_Example.vecInput := by
  rfl

/-- A call of `getSum` on a wrapper in any state. -/
theorem getSum_run {D : Type} (self : RcppFunction D) (v : List D) (w : World D) :
    getSum self v w =
      match self.fn (.vector v) with
      | .ok (x :: _) =>
        (.ok (x, { self with vectorArg := none, numProtected := 0 }),
          { w with
            pstack := w.pstack.drop self.numProtected,
            calls := w.calls ++ [.vector v],
            log := w.log ++
              [.read x, .release (.realVector v :: w.pstack.take self.numProtected)] })
      | .ok [] =>
        (.undefined,
          { w with pstack := .realVector v :: w.pstack, calls := w.calls ++ [.vector v] })
      | .error cause =>
        (.throw (.stdException .callbackError cause),
          { w with pstack := .realVector v :: w.pstack, calls := w.calls ++ [.vector v] }) := by
  simp only [getSum, RcppFunction.setRVector,
    RcppFunction.vectorCall, RcppFunction.clearProtectionStack, native_bind_apply,
    native_pure_apply, protect, unprotect, invokeHost, REAL, uncheckedGet]
  cases h : self.fn (.vector v) with
  | error c => simp
  | ok r =>
    cases r with
    | nil => simp
    | cons x r => simp

theorem getSum_eq {D : Type} (f : HostFn D) (v : List D) (w : World D) :
    getSum (RcppFunction.wrap f) v w =
      match f (.vector v) with
      | .ok (x :: _) =>
        (.ok (x, RcppFunction.wrap f),
          { w with
            calls := w.calls ++ [.vector v],
            log := w.log ++ [.read x, .release [.realVector v]] })
      | .ok [] =>
        (.undefined,
          { w with pstack := .realVector v :: w.pstack, calls := w.calls ++ [.vector v] })
      | .error cause =>
        (.throw (.stdException .callbackError cause),
          { w with pstack := .realVector v :: w.pstack, calls := w.calls ++ [.vector v] }) := by
  rw [getSum_run]
  simp only [RcppFunction.wrap]
  cases h : f (.vector v) with
  | error c => rfl
  | ok r =>
    cases r with
    | nil => rfl
    | cons x r => rfl

/-- A call of `addOne` on a wrapper in any state. -/
theorem addOne_run {D : Type} [IntCast D] (self : RcppFunction D) (alpha beta gamma : D)
    (w : World D) :
    addOne self alpha beta gamma w =
      match self.fn (.namedList [("alpha", alpha), ("beta", beta), ("gamma", gamma)]) with
      | .ok result =>
        (.ok (result, { self with listSize := 0, listArg := [], numProtected := 0 }),
          { w with
            pstack := w.pstack.drop self.numProtected,
            calls := w.calls ++
              [.namedList [("alpha", alpha), ("beta", beta), ("gamma", gamma)]],
            log := w.log ++ result.map .read ++
              [.release (.real gamma :: .real beta :: .real alpha :: .list 3 ::
                w.pstack.take self.numProtected)] })
      | .error cause =>
        (.throw (.stdException .callbackError cause),
          { w with
            pstack := .real gamma :: .real beta :: .real alpha :: .list 3 :: w.pstack,
            calls := w.calls ++
              [.namedList [("alpha", alpha), ("beta", beta), ("gamma", gamma)]] }) := by
  cases h : self.fn (.namedList [("alpha", alpha), ("beta", beta), ("gamma", gamma)]) with
  | error c =>
    simp [addOne, RcppFunction.setRListSize,
      RcppFunction.appendToRList, RcppFunction.listCall,
      RcppFunction.clearProtectionStack, protect, unprotect, invokeHost, throwNative, h]
  | ok r =>
    simp [addOne, RcppFunction.setRListSize,
      RcppFunction.appendToRList, RcppFunction.listCall,
      RcppFunction.clearProtectionStack, protect, unprotect, invokeHost, throwNative, h,
      forLoop_copy]

theorem addOne_eq {D : Type} [IntCast D] (f : HostFn D) (alpha beta gamma : D) (w : World D) :
    addOne (RcppFunction.wrap f) alpha beta gamma w =
      match f (.namedList [("alpha", alpha), ("beta", beta), ("gamma", gamma)]) with
      | .ok result =>
        (.ok (result, RcppFunction.wrap f),
          { w with
            calls := w.calls ++
              [.namedList [("alpha", alpha), ("beta", beta), ("gamma", gamma)]],
            log := w.log ++ result.map .read ++
              [.release [.real gamma, .real beta, .real alpha, .list 3]] })
      | .error cause =>
        (.throw (.stdException .callbackError cause),
          { w with
            pstack := .real gamma :: .real beta :: .real alpha :: .list 3 :: w.pstack,
            calls := w.calls ++
              [.namedList [("alpha", alpha), ("beta", beta), ("gamma", gamma)]] }) := by
  rw [addOne_run]
  simp only [RcppFunction.wrap]
  cases h : f (.namedList [("alpha", alpha), ("beta", beta), ("gamma", gamma)]) with
  | error c => rfl
  | ok r => rfl

theorem readRows_eq {α : Type} (rows : List (List α)) (ncols : Nat)
    (h : ∀ row ∈ rows, row.length = ncols) : readRows rows ncols = .ok rows := by
  induction rows with
  | nil => rfl
  | cons row rows ih =>
    have h1 : row.length = ncols := h row (List.mem_cons_self _ _)
    have h2 := ih (fun r hr => h r (List.mem_cons_of_mem _ hr))
    simp [readRows, readArray, h1, h2]

/-- The entries of the list `Rcpp_Example` returns, in terms of the decoded
inputs (lines 275-298). -/
theorem tryBlock_run {D : Type} [Add D] [Mul D] [IntCast D] [OfScientific D]
    (ps : List (String × SEXP D)) (method : String) (tolerance : D)
    (maxIter : Int) (startDate : RcppDate) (nlist : SEXP D) (name0 : String) (value0 : D)
    (nlRest : List (String × D)) (x : List D) (c : Nat) (rows : List (List D))
    (row0 : List D) (df : SEXP D) (inframe : RcppFrame D) (dates : List RcppDate)
    (strs : List String) (f g : HostFn D) (w : World D)
    (hmethod : ps.lookup "method" = some (.string method))
    (htol : ps.lookup "tolerance" = some (.real tolerance))
    (hiter : ps.lookup "maxIter" = some (.integer maxIter))
    (hdate : ps.lookup "startDate" = some (.date startDate))
    (hnl : RcppNumList.create nlist = .ok ((name0, value0) :: nlRest))
    (hrows : ∀ row ∈ rows, row.length = c)
    (h0 : rows[0]? = some row0)
    (hdf : RcppFrame.ofSEXP df = .ok inframe) :
    Rcpp_Example.tryBlock (.list ps) nlist (.realVector x) (.matrix rows.length c rows) df
        (.dateVector dates) (.stringVector strs) (.closure f) (.closure g) w =
      match f (.vector Rcpp_Example.vecInput) with
      | .error cause =>
        (.throw (.stdException .callbackError cause),
          { pstack := .realVector Rcpp_Example.vecInput :: w.pstack,
            calls := w.calls ++ [.vector Rcpp_Example.vecInput],
            out := w.out ++
              [.parsingStartDate startDate.getMonth startDate.getDay startDate.getYear],
            log := w.log })
      | .ok [] =>
        (.undefined,
          { pstack := .realVector Rcpp_Example.vecInput :: w.pstack,
            calls := w.calls ++ [.vector Rcpp_Example.vecInput],
            out := w.out ++
              [.parsingStartDate startDate.getMonth startDate.getDay startDate.getYear],
            log := w.log })
      | .ok (s0 :: _) =>
        match g (.namedList Rcpp_Example.listArg) with
        | .error cause =>
          (.throw (.stdException .callbackError cause),
            { pstack := .real ((3 : Int) : D) :: .real ((2 : Int) : D) ::
                .real ((1 : Int) : D) :: .list 3 :: w.pstack,
              calls := w.calls ++
                [.vector Rcpp_Example.vecInput, .namedList Rcpp_Example.listArg],
              out := w.out ++
                [.parsingStartDate startDate.getMonth startDate.getDay startDate.getYear,
                 .vecSum s0],
              log := w.log ++ [.read s0, .release [.realVector Rcpp_Example.vecInput]] })
        | .ok (o0 :: o1 :: o2 :: oRest) =>
          (.ok (.list
            [("date", .date (RcppDate.ofMDY 12 25 1999)),
             ("dateVec", .dateVector dates),
             ("method", .string method),
             ("tolerance", .real tolerance),
             ("maxIter", .integer maxIter),
             ("nlFirstName", .string name0),
             ("nlFirstValue", .real value0),
             ("matD", .matrix rows.length c
                (rows.map (List.map (fun y => ((2 : Int) : D) * y)))),
             ("stlvec", .realVector
                ((x.map (fun y => ((3 : Int) : D) * y)).map (fun y => y + ((1 : Int) : D)))),
             ("stlmat", .matrix rows.length c
                ((rows.map (List.map (fun y => ((2 : Int) : D) * y))).map
                  (List.map (fun y => y + ((2 : Int) : D))))),
             ("a", .matrix rows.length c
                (rows.map (List.map (fun y => ((2 : Int) : D) * y)))),
             ("v", .realVector (x.map (fun y => ((3 : Int) : D) * y))),
             ("stringVec", .stringVector strs),
             ("strings", .stringVector ["hello", "world"]),
             ("InputDF", .dataFrame inframe.colNames inframe.table),
             ("PreDF", .dataFrame ["alpha", "beta", "gamma"]
                [[.string "a", .real 3.14, .date (RcppDate.ofMDY 7 4 2006)],
                 [.string "b", .real 6.28, .date (RcppDate.ofMDY 12 25 2006)]]),
             ("params", .list ps)]),
           { pstack := w.pstack,
             calls := w.calls ++
               [.vector Rcpp_Example.vecInput, .namedList Rcpp_Example.listArg],
             out := w.out ++
               [.parsingStartDate startDate.getMonth startDate.getDay startDate.getYear,
                .vecSum s0, .listOut o0 o1 o2],
             log := w.log ++ ([.read s0, .release [.realVector Rcpp_Example.vecInput]] ++
               (o0 :: o1 :: o2 :: oRest).map .read ++
               [.release [.real ((3 : Int) : D), .real ((2 : Int) : D), .real ((1 : Int) : D), .list 3]]) })
        | .ok [] =>
          (.undefined,
            { pstack := w.pstack,
              calls := w.calls ++
                [.vector Rcpp_Example.vecInput, .namedList Rcpp_Example.listArg],
              out := w.out ++
                [.parsingStartDate startDate.getMonth startDate.getDay startDate.getYear,
                 .vecSum s0],
              log := w.log ++ [.read s0, .release [.realVector Rcpp_Example.vecInput],
                .release [.real ((3 : Int) : D), .real ((2 : Int) : D), .real ((1 : Int) : D), .list 3]] })
        | .ok [o0] =>
          (.undefined,
            { pstack := w.pstack,
              calls := w.calls ++
                [.vector Rcpp_Example.vecInput, .namedList Rcpp_Example.listArg],
              out := w.out ++
                [.parsingStartDate startDate.getMonth startDate.getDay startDate.getYear,
                 .vecSum s0],
              log := w.log ++ [.read s0, .release [.realVector Rcpp_Example.vecInput], .read o0,
                .release [.real ((3 : Int) : D), .real ((2 : Int) : D), .real ((1 : Int) : D), .list 3]] })
        | .ok [o0, o1] =>
          (.undefined,
            { pstack := w.pstack,
              calls := w.calls ++
                [.vector Rcpp_Example.vecInput, .namedList Rcpp_Example.listArg],
              out := w.out ++
                [.parsingStartDate startDate.getMonth startDate.getDay startDate.getYear,
                 .vecSum s0],
              log := w.log ++ [.read s0, .release [.realVector Rcpp_Example.vecInput], .read o0, .read o1,
                .release [.real ((3 : Int) : D), .real ((2 : Int) : D), .real ((1 : Int) : D), .list 3]] }) := by
  have hc0 : row0.length = c := hrows row0 (List.getElem?_mem h0)
  have hmat := forLoop_matrix_map (fun y => ((2 : Int) : D) * y) rows c hrows
  have hvec := forLoop_checked_map (fun y => ((3 : Int) : D) * y) x
  have hstl := forLoop_unchecked_map (fun y => y + ((1 : Int) : D))
    (x.map (fun y => ((3 : Int) : D) * y))
  have hrows2 : ∀ row ∈ rows.map (List.map (fun y => ((2 : Int) : D) * y)),
      row.length = c := by
    intro row hrow
    simp only [List.mem_map] at hrow
    obtain ⟨r, hr, rfl⟩ := hrow
    simpa using hrows r hr
  have hsm := forLoop_stlmat_map (fun y => y + ((2 : Int) : D))
    (rows.map (List.map (fun y => ((2 : Int) : D) * y))) c hrows2
  simp only [List.length_map] at hstl hsm
  have hv := vecInput_loop (D := D)
  have hg1 := addOne_eq g ((1 : Int) : D) ((2 : Int) : D) ((3 : Int) : D)
  have hsv : uncheckedSet (List.replicate 2 "") 0 "hello" = .ok ["hello", ""] := rfl
  have hsv2 : uncheckedSet ["hello", ""] 1 "world" = .ok ["hello", "world"] := rfl
  have hcn0 : uncheckedSet (List.replicate 3 "") 0 "alpha" = .ok ["alpha", "", ""] := rfl
  have hcn1 : uncheckedSet ["alpha", "", ""] 1 "beta" = .ok ["alpha", "beta", ""] := rfl
  have hcn2 : uncheckedSet ["alpha", "beta", ""] 2 "gamma" = .ok ["alpha", "beta", "gamma"] := rfl
  have hr0 : ∀ v : ColDatum D, uncheckedSet (List.replicate 3 (ColDatum.unknown : ColDatum D)) 0 v
      = .ok [v, .unknown, .unknown] := fun _ => rfl
  have hr1 : ∀ u v : ColDatum D, uncheckedSet [u, .unknown, .unknown] 1 v
      = .ok [u, v, .unknown] := fun _ _ => rfl
  have hr2 : ∀ u u1 v : ColDatum D, uncheckedSet [u, u1, .unknown] 2 v
      = .ok [u, u1, v] := fun _ _ _ => rfl
  have hcreate : RcppMatrix.create (SEXP.matrix rows.length c rows) =
      .ok { dim1 := rows.length, dim2 := c, a := rows } := by
    rw [RcppMatrix.create, if_pos ⟨rfl, hrows⟩]
  have hget0 : uncheckedGet (rows.map (List.map (fun y => ((2 : Int) : D) * y))) 0 =
      .ok (row0.map (fun y => ((2 : Int) : D) * y)) := by
    simp [uncheckedGet, h0]
  have hadd1 : ∀ u v t : ColDatum D,
      (RcppFrame.create ["alpha", "beta", "gamma"]).addRow [u, v, t] =
        .ok { colNames := ["alpha", "beta", "gamma"], table := [[u, v, t]] } := fun _ _ _ => rfl
  have hadd2 : (RcppFrame.addRow
      ({ colNames := ["alpha", "beta", "gamma"],
         table := [[.string "a", .real 3.14, .date (RcppDate.ofMDY 7 4 2006)]] } : RcppFrame D)
      [.string "b", .real (6.28 : D), .date (RcppDate.ofMDY 12 25 2006)]) =
        .ok { colNames := ["alpha", "beta", "gamma"],
              table := [[.string "a", .real 3.14, .date (RcppDate.ofMDY 7 4 2006)],
                        [.string "b", .real 6.28, .date (RcppDate.ofMDY 12 25 2006)]] } := rfl
  have hstlm : SEXP.ofStlMatrix
      ((rows.map (List.map (fun y => ((2 : Int) : D) * y))).map
        (List.map (fun y => y + ((2 : Int) : D)))) =
      .ok (.matrix rows.length c ((rows.map (List.map (fun y => ((2 : Int) : D) * y))).map
        (List.map (fun y => y + ((2 : Int) : D))))) := by
    have hall : ∀ row ∈ (rows.map (List.map (fun y => ((2 : Int) : D) * y))).map
        (List.map (fun y => y + ((2 : Int) : D))), row.length = c := by
      intro row hrow
      simp only [List.mem_map] at hrow
      obtain ⟨r, ⟨r1, hr1, rfl⟩, rfl⟩ := hrow
      simpa using hrows r1 hr1
    cases rows with
    | nil => simp at h0
    | cons r rest =>
      simp only [List.getElem?_cons_zero, Option.some.injEq] at h0
      subst h0
      simp only [SEXP.ofStlMatrix, List.map_cons, List.head?_cons, Option.map_some',
        Option.getD_some, List.length_map, hc0]
      rw [if_pos (by simpa [hc0] using hall)]
      simp
  have hcm : SEXP.ofCMatrix (rows.map (List.map (fun y => ((2 : Int) : D) * y))) rows.length c =
      .ok (.matrix rows.length c (rows.map (List.map (fun y => ((2 : Int) : D) * y)))) := by
    have htake : List.take rows.length (rows.map (List.map (fun y => ((2 : Int) : D) * y))) =
        rows.map (List.map (fun y => ((2 : Int) : D) * y)) :=
      List.take_of_length_le (by simp)
    simp [SEXP.ofCMatrix, readArray, htake, readRows_eq _ _ hrows2]
  have hcv : SEXP.ofCVector (x.map (fun y => ((3 : Int) : D) * y)) x.length =
      .ok (.realVector (x.map (fun y => ((3 : Int) : D) * y))) := by
    simp [SEXP.ofCVector, readArray]
  have hnl0 : checkedGet ((name0, value0) :: nlRest) 0 = .ok (name0, value0) := by
    simp [checkedGet]
  have hu0 : uncheckedGet ([] : List D) 0 = .undefined := rfl
  have hu1 : ∀ a : D, uncheckedGet [a] 1 = .undefined := fun _ => rfl
  have hu2 : ∀ a b : D, uncheckedGet [a, b] 2 = .undefined := fun _ _ => rfl
  have hk0 : ∀ (a : D) (l : List D), uncheckedGet (a :: l) 0 = .ok a := fun _ _ => by
    simp [uncheckedGet]
  have hk1 : ∀ (a b : D) (l : List D), uncheckedGet (a :: b :: l) 1 = .ok b := fun _ _ _ => by
    simp [uncheckedGet]
  have hk2 : ∀ (a b d : D) (l : List D), uncheckedGet (a :: b :: d :: l) 2 = .ok d :=
    fun _ _ _ _ => by simp [uncheckedGet]
  simp only [Rcpp_Example.listArg] at hg1 ⊢
  rcases hf : f (.vector Rcpp_Example.vecInput) with cause | r
  · simp only [Rcpp_Example.tryBlock, native_bind_apply, liftRes_apply, Rprintf_apply,
      native_pure_apply, RcppParams.create, RcppParams.getStringValue,
      RcppParams.getDoubleValue, RcppParams.getIntValue, RcppParams.getDateValue,
      hmethod, htol, hiter, hdate, RcppDateVector.create, RcppStringVector.create, hnl,
      RcppVector.create, hcreate, hmat, hvec, hstl, List.length_map, hget0, hc0, hsm,
      hsv, hsv2, hcn0, hcn1, hcn2, hr0, hr1, hr2, hdf, hadd1, hadd2, MyRVectorFunc,
      MyRListFunc, RcppFunction.create, hv, getSum_eq, hf]
  · rcases r with _ | ⟨s0, sRest⟩
    · simp only [Rcpp_Example.tryBlock, native_bind_apply, liftRes_apply, Rprintf_apply,
        native_pure_apply, RcppParams.create, RcppParams.getStringValue,
        RcppParams.getDoubleValue, RcppParams.getIntValue, RcppParams.getDateValue,
        hmethod, htol, hiter, hdate, RcppDateVector.create, RcppStringVector.create, hnl,
        RcppVector.create, hcreate, hmat, hvec, hstl, List.length_map, hget0, hc0, hsm,
        hsv, hsv2, hcn0, hcn1, hcn2, hr0, hr1, hr2, hdf, hadd1, hadd2, MyRVectorFunc,
        MyRListFunc, RcppFunction.create, hv, getSum_eq, hf]
    · rcases hg : g (.namedList [("alpha", ((1 : Int) : D)), ("beta", ((2 : Int) : D)),
          ("gamma", ((3 : Int) : D))]) with cause | r
      · simp only [Rcpp_Example.tryBlock, native_bind_apply, liftRes_apply, Rprintf_apply,
          native_pure_apply, RcppParams.create, RcppParams.getStringValue,
          RcppParams.getDoubleValue, RcppParams.getIntValue, RcppParams.getDateValue,
          hmethod, htol, hiter, hdate, RcppDateVector.create, RcppStringVector.create, hnl,
          RcppVector.create, hcreate, hmat, hvec, hstl, List.length_map, hget0, hc0, hsm,
          hsv, hsv2, hcn0, hcn1, hcn2, hr0, hr1, hr2, hdf, hadd1, hadd2, MyRVectorFunc,
          MyRListFunc, RcppFunction.create, hv, getSum_eq, hf, hg1, hg]
        simp only [List.append_assoc, List.nil_append, List.cons_append]
      · rcases r with _ | ⟨o0, _ | ⟨o1, _ | ⟨o2, oRest⟩⟩⟩
        · simp only [Rcpp_Example.tryBlock, native_bind_apply, liftRes_apply, Rprintf_apply,
            native_pure_apply, RcppParams.create, RcppParams.getStringValue,
            RcppParams.getDoubleValue, RcppParams.getIntValue, RcppParams.getDateValue,
            hmethod, htol, hiter, hdate, RcppDateVector.create, RcppStringVector.create, hnl,
            RcppVector.create, hcreate, hmat, hvec, hstl, List.length_map, hget0, hc0, hsm,
            hsv, hsv2, hcn0, hcn1, hcn2, hr0, hr1, hr2, hdf, hadd1, hadd2, MyRVectorFunc,
            MyRListFunc, RcppFunction.create, hv, getSum_eq, hf, hg1, hg]
          simp only [hu0, hu1, hu2, hk0, hk1, hk2, List.append_assoc, List.nil_append,
            List.cons_append, List.map_cons, List.map_nil]
        · simp only [Rcpp_Example.tryBlock, native_bind_apply, liftRes_apply, Rprintf_apply,
            native_pure_apply, RcppParams.create, RcppParams.getStringValue,
            RcppParams.getDoubleValue, RcppParams.getIntValue, RcppParams.getDateValue,
            hmethod, htol, hiter, hdate, RcppDateVector.create, RcppStringVector.create, hnl,
            RcppVector.create, hcreate, hmat, hvec, hstl, List.length_map, hget0, hc0, hsm,
            hsv, hsv2, hcn0, hcn1, hcn2, hr0, hr1, hr2, hdf, hadd1, hadd2, MyRVectorFunc,
            MyRListFunc, RcppFunction.create, hv, getSum_eq, hf, hg1, hg]
          simp only [hu0, hu1, hu2, hk0, hk1, hk2, List.append_assoc, List.nil_append,
            List.cons_append, List.map_cons, List.map_nil]
        · simp only [Rcpp_Example.tryBlock, native_bind_apply, liftRes_apply, Rprintf_apply,
            native_pure_apply, RcppParams.create, RcppParams.getStringValue,
            RcppParams.getDoubleValue, RcppParams.getIntValue, RcppParams.getDateValue,
            hmethod, htol, hiter, hdate, RcppDateVector.create, RcppStringVector.create, hnl,
            RcppVector.create, hcreate, hmat, hvec, hstl, List.length_map, hget0, hc0, hsm,
            hsv, hsv2, hcn0, hcn1, hcn2, hr0, hr1, hr2, hdf, hadd1, hadd2, MyRVectorFunc,
            MyRListFunc, RcppFunction.create, hv, getSum_eq, hf, hg1, hg]
          simp only [hu0, hu1, hu2, hk0, hk1, hk2, List.append_assoc, List.nil_append,
            List.cons_append, List.map_cons, List.map_nil]
        · simp only [Rcpp_Example.tryBlock, native_bind_apply, liftRes_apply, Rprintf_apply,
            native_pure_apply, RcppParams.create, RcppParams.getStringValue,
            RcppParams.getDoubleValue, RcppParams.getIntValue, RcppParams.getDateValue,
            hmethod, htol, hiter, hdate, RcppDateVector.create, RcppStringVector.create, hnl,
            RcppVector.create, hcreate, hmat, hvec, hstl, List.length_map, hget0, hc0, hsm,
            hsv, hsv2, hcn0, hcn1, hcn2, hr0, hr1, hr2, hdf, hadd1, hadd2, MyRVectorFunc,
            MyRListFunc, RcppFunction.create, hv, getSum_eq, hf, hg1, hg]
          simp only [hu0, hu1, hu2, hk0, hk1, hk2, List.append_assoc, List.nil_append,
            List.cons_append, List.map_cons, List.map_nil]
          simp only [hnl0, RcppResultSet.empty, RcppResultSet.add, RcppNumList.getName,
            RcppNumList.getValue, res_bind_ok, res_pure_eq, hstlm, hcm, hcv,
            RcppResultSet.getReturnList, List.nil_append, List.cons_append,
            Bool.false_eq_true, if_false, List.append_assoc, List.map_cons, List.map_nil]

/-! ## No step of `Rcpp_Example` goes wrong silently -/

theorem resSat_eq_of_ok {α : Type} {r : Res α} {U : Prop} {a : α} (h : r = .ok a) :
    r.Sat (fun b => b = a) U := by
  subst h; rfl

theorem resSat_of_ne {α : Type} {r : Res α} {U : Prop} (h : r ≠ .undefined) :
    r.Sat (fun _ => True) U := by
  cases r with
  | ok a => trivial
  | throw e => trivial
  | undefined => exact absurd rfl h

theorem rcppParams_create_ne {D : Type} (p : SEXP D) : RcppParams.create p ≠ .undefined := by
  cases p <;> simp [RcppParams.create, typeMismatch]

theorem getStringValue_ne {D : Type} (p : RcppParams D) (n : String) :
    p.getStringValue n ≠ .undefined := by
  unfold RcppParams.getStringValue
  split <;> simp [typeMismatch, missingField]

theorem getDoubleValue_ne {D : Type} [IntCast D] (p : RcppParams D) (n : String) :
    p.getDoubleValue n ≠ .undefined := by
  unfold RcppParams.getDoubleValue
  split <;> simp [typeMismatch, missingField]

theorem getIntValue_ne {D : Type} (p : RcppParams D) (n : String) :
    p.getIntValue n ≠ .undefined := by
  unfold RcppParams.getIntValue
  split <;> simp [typeMismatch, missingField]

theorem getDateValue_ne {D : Type} (p : RcppParams D) (n : String) :
    p.getDateValue n ≠ .undefined := by
  unfold RcppParams.getDateValue
  split <;> simp [typeMismatch, missingField]

theorem rcppDateVector_create_ne {D : Type} (p : SEXP D) :
    RcppDateVector.create p ≠ .undefined := by
  cases p <;> simp [RcppDateVector.create, typeMismatch]

theorem rcppStringVector_create_ne {D : Type} (p : SEXP D) :
    RcppStringVector.create p ≠ .undefined := by
  cases p <;> simp [RcppStringVector.create, typeMismatch]

theorem rcppVector_create_ne {D : Type} (p : SEXP D) :
    RcppVector.create p ≠ .undefined := by
  cases p <;> simp [RcppVector.create, typeMismatch]

theorem rcppNumList_item_ne {D : Type} [IntCast D] (e : String × SEXP D) :
    RcppNumList.item e ≠ .undefined := by
  obtain ⟨n, v⟩ := e
  cases v <;> simp [RcppNumList.item, typeMismatch]

theorem rcppNumList_decode_ne {D : Type} [IntCast D] (es : List (String × SEXP D)) :
    RcppNumList.decode es ≠ .undefined := by
  induction es with
  | nil => simp [RcppNumList.decode]
  | cons e es ih =>
    have h1 := rcppNumList_item_ne e
    unfold RcppNumList.decode
    cases hi : RcppNumList.item e with
    | undefined => exact absurd hi h1
    | throw x => simp
    | ok a =>
      cases hd : RcppNumList.decode es with
      | undefined => exact absurd hd ih
      | throw x => simp
      | ok b => simp

theorem rcppNumList_create_ne {D : Type} [IntCast D] (p : SEXP D) :
    RcppNumList.create p ≠ .undefined := by
  cases p <;> simp [RcppNumList.create, typeMismatch, rcppNumList_decode_ne]

theorem checkedGet_ne {α : Type} (v : List α) (i : Nat) : checkedGet v i ≠ .undefined := by
  unfold checkedGet
  split <;> simp

theorem rcppNumList_getName_ne {D : Type} (nl : List (String × D)) (i : Nat) :
    RcppNumList.getName nl i ≠ .undefined := by
  unfold RcppNumList.getName
  cases h : checkedGet nl i with
  | undefined => exact absurd h (checkedGet_ne _ _)
  | throw e => simp
  | ok a => simp

theorem rcppNumList_getValue_ne {D : Type} (nl : List (String × D)) (i : Nat) :
    RcppNumList.getValue nl i ≠ .undefined := by
  unfold RcppNumList.getValue
  cases h : checkedGet nl i with
  | undefined => exact absurd h (checkedGet_ne _ _)
  | throw e => simp
  | ok a => simp

theorem rcppFrame_addRow_ne {D : Type} (fr : RcppFrame D) (row : List (ColDatum D)) :
    fr.addRow row ≠ .undefined := by
  unfold RcppFrame.addRow
  split
  · simp
  · split
    · simp
    · split <;> simp

theorem rcppFrame_foldlM_addRow_ne {D : Type} (rows : List (List (ColDatum D))) :
    ∀ fr : RcppFrame D,
      rows.foldlM (fun frame row => frame.addRow row) fr ≠ .undefined := by
  induction rows with
  | nil => intro fr; simp [List.foldlM]
  | cons row rows ih =>
    intro fr
    rw [List.foldlM_cons]
    cases h : fr.addRow row with
    | undefined => exact absurd h (rcppFrame_addRow_ne _ _)
    | throw e => simp
    | ok a => simpa using ih a

theorem rcppFrame_ofSEXP_ne {D : Type} (p : SEXP D) : RcppFrame.ofSEXP p ≠ .undefined := by
  cases p <;> simp [RcppFrame.ofSEXP, typeMismatch, rcppFrame_foldlM_addRow_ne]

theorem rcppMatrix_create_sat {D : Type} (U : Prop) (nummat : SEXP D) :
    (RcppMatrix.create nummat).Sat
      (fun m => nummat = .matrix m.a.length m.dim2 m.a ∧ m.dim1 = m.a.length ∧
        ∀ row ∈ m.a, row.length = m.dim2) U := by
  cases nummat with
  | matrix dim1 dim2 rows =>
    by_cases h : rows.length = dim1 ∧ ∀ row ∈ rows, row.length = dim2
    · simp only [RcppMatrix.create, if_pos h, Res.Sat]
      exact ⟨by rw [h.1], h.1.symm, h.2⟩
    · simp only [RcppMatrix.create, if_neg h, Res.Sat]
  | _ => simp [RcppMatrix.create, typeMismatch, Res.Sat]

theorem rcppFunction_create_sat {D : Type} (U : Prop) (fn : SEXP D) :
    (RcppFunction.create fn).Sat (fun o => ∃ f, fn = .closure f ∧ o = RcppFunction.wrap f) U := by
  cases fn <;> simp [RcppFunction.create, Res.Sat]

theorem uncheckedGet_sat {α : Type} (U : Prop) (v : List α) (i : Nat) (h : ¬U → i < v.length) :
    (uncheckedGet v i).Sat (fun x => v[i]? = some x) U := by
  unfold uncheckedGet
  cases hv : v[i]? with
  | some x => simp [Res.Sat]
  | none =>
    simp only [Res.Sat]
    by_contra hU
    have := h hU
    simp [List.getElem?_eq_none_iff] at hv
    omega


theorem ofStlMatrix_ne {D : Type} (mat : List (List D)) :
    SEXP.ofStlMatrix mat ≠ .undefined := by
  unfold SEXP.ofStlMatrix
  dsimp only
  split <;> simp

theorem ofCMatrix_eq {D : Type} (a : List (List D)) (ncols : Nat)
    (h : ∀ row ∈ a, row.length = ncols) :
    SEXP.ofCMatrix a a.length ncols = .ok (.matrix a.length ncols a) := by
  simp [SEXP.ofCMatrix, readArray, readRows_eq _ _ h]

theorem ofCVector_eq {D : Type} (v : List D) :
    SEXP.ofCVector v v.length = .ok (.realVector v) := by
  simp [SEXP.ofCVector, readArray]

theorem rcppResultSet_add_eq {D : Type} (values : List (String × SEXP D)) (name : String)
    (value : SEXP D) :
    RcppResultSet.add { values := values, finalized := false } name value =
      .ok { values := values ++ [(name, value)], finalized := false } := rfl

theorem getSum_sat {D : Type} (U : Prop) (f : HostFn D) (v : List D)
    (h : ¬U → f (.vector v) ≠ .ok []) :
    (getSum (RcppFunction.wrap f) v).Sat (fun _ => True) U := by
  intro w
  rw [getSum_eq]
  cases hf : f (.vector v) with
  | error c => trivial
  | ok r =>
    cases r with
    | nil =>
      simp only [Res.Sat]
      by_contra hU
      exact h hU hf
    | cons x r => trivial

theorem addOne_sat {D : Type} [IntCast D] (U : Prop) (g : HostFn D) (alpha beta gamma : D) :
    (addOne (RcppFunction.wrap g) alpha beta gamma).Sat
      (fun p => g (.namedList [("alpha", alpha), ("beta", beta), ("gamma", gamma)]) = .ok p.1)
      U := by
  intro w
  rw [addOne_eq]
  cases hg : g (.namedList [("alpha", alpha), ("beta", beta), ("gamma", gamma)]) with
  | error c => trivial
  | ok r => simp [Res.Sat]

theorem tryBlock_sat {D : Type} [Add D] [Mul D] [IntCast D] [OfScientific D] (U : Prop)
    (params nlist numvec nummat df datevec stringvec fnvec fnlist : SEXP D)
    (H1 : ¬U → ∀ c, nummat ≠ .matrix 0 c [])
    (H2 : ¬U → ∀ f, fnvec = .closure f → f (.vector Rcpp_Example.vecInput) ≠ .ok [])
    (H3 : ¬U → ∀ g r, fnlist = .closure g →
      g (.namedList Rcpp_Example.listArg) = .ok r → 3 ≤ r.length) :
    (Rcpp_Example.tryBlock params nlist numvec nummat df datevec stringvec fnvec fnlist).Sat
      (fun rl => ∃ entries, rl = .list entries ∧
        entries.map Prod.fst = Rcpp_Example.entryNames) U := by
  unfold Rcpp_Example.tryBlock
  refine nativeSat_bind (nativeSat_liftRes (resSat_of_ne (rcppParams_create_ne _))) (fun rparam _ => ?_)
  refine nativeSat_bind (nativeSat_liftRes (resSat_of_ne (getStringValue_ne _ _))) (fun method _ => ?_)
  refine nativeSat_bind (nativeSat_liftRes (resSat_of_ne (getDoubleValue_ne _ _))) (fun tolerance _ => ?_)
  refine nativeSat_bind (nativeSat_liftRes (resSat_of_ne (getIntValue_ne _ _))) (fun maxIter _ => ?_)
  refine nativeSat_bind (nativeSat_liftRes (resSat_of_ne (getDateValue_ne _ _))) (fun startDate _ => ?_)
  refine nativeSat_bind (nativeSat_Rprintf (Q := fun _ => True) trivial) (fun _ _ => ?_)
  refine nativeSat_bind (nativeSat_liftRes (resSat_of_ne (rcppDateVector_create_ne _))) (fun dateVec _ => ?_)
  refine nativeSat_bind (nativeSat_liftRes (resSat_of_ne (rcppStringVector_create_ne _))) (fun stringVec _ => ?_)
  refine nativeSat_bind (nativeSat_liftRes (resSat_of_ne (rcppNumList_create_ne _))) (fun nl _ => ?_)
  refine nativeSat_bind (nativeSat_liftRes (resSat_of_ne (rcppVector_create_ne _))) (fun vecD _ => ?_)
  refine nativeSat_bind (nativeSat_liftRes (rcppMatrix_create_sat U _)) (fun matD hmatD => ?_)
  obtain ⟨dim1, dim2, rows⟩ := matD
  obtain ⟨hnummat, hdim1, hrows⟩ := hmatD
  dsimp only at hnummat hdim1 hrows ⊢
  subst hdim1
  -- lines 162-168 and 177-180
  refine nativeSat_bind (nativeSat_liftRes (resSat_eq_of_ok
    (forLoop_matrix_map (fun y => ((2 : Int) : D) * y) rows dim2 hrows))) (fun matD hm => ?_)
  subst hm
  refine nativeSat_bind (nativeSat_liftRes (resSat_eq_of_ok
    (forLoop_checked_map (fun y => ((3 : Int) : D) * y) vecD))) (fun vecD1 hv => ?_)
  subst hv
  have hstl := forLoop_unchecked_map (fun y => y + ((1 : Int) : D))
    (vecD.map (fun y => ((3 : Int) : D) * y))
  refine nativeSat_bind (nativeSat_liftRes (resSat_eq_of_ok hstl)) (fun stlvec hs => ?_)
  subst hs
  -- lines 183-188
  dsimp only
  have hne : ¬U → 0 < (rows.map (List.map (fun y => ((2 : Int) : D) * y))).length := by
    intro hU
    rw [List.length_map]
    rcases Nat.eq_zero_or_pos rows.length with h0 | h0
    · rw [List.length_eq_zero.mp h0] at hnummat
      exact absurd hnummat (H1 hU dim2)
    · exact h0
  refine nativeSat_bind (nativeSat_liftRes (uncheckedGet_sat U _ 0 hne)) (fun row0 hrow0 => ?_)
  have hrows2 : ∀ row ∈ rows.map (List.map (fun y => ((2 : Int) : D) * y)),
      row.length = dim2 := by
    intro row hrow
    simp only [List.mem_map] at hrow
    obtain ⟨r, hr, rfl⟩ := hrow
    simpa using hrows r hr
  have hc0 : row0.length = dim2 := hrows2 row0 (List.getElem?_mem hrow0)
  have hsm := forLoop_stlmat_map (fun y => y + ((2 : Int) : D))
    (rows.map (List.map (fun y => ((2 : Int) : D) * y))) dim2 hrows2
  rw [hc0]
  refine nativeSat_bind (nativeSat_liftRes (resSat_eq_of_ok hsm)) (fun stlmat hs => ?_)
  subst hs
  -- lines 194-255
  refine nativeSat_bind (nativeSat_liftRes (resSat_eq_of_ok rfl)) (fun svec hs => ?_)
  subst hs
  refine nativeSat_bind (nativeSat_liftRes (resSat_eq_of_ok rfl)) (fun svec hs => ?_)
  subst hs
  refine nativeSat_bind (nativeSat_liftRes (resSat_of_ne (rcppFrame_ofSEXP_ne _))) (fun inframe _ => ?_)
  refine nativeSat_bind (nativeSat_liftRes (resSat_eq_of_ok rfl)) (fun colNames hs => ?_)
  subst hs
  refine nativeSat_bind (nativeSat_liftRes (resSat_eq_of_ok rfl)) (fun colNames hs => ?_)
  subst hs
  refine nativeSat_bind (nativeSat_liftRes (resSat_eq_of_ok rfl)) (fun colNames hs => ?_)
  subst hs
  refine nativeSat_bind (nativeSat_liftRes (resSat_eq_of_ok rfl)) (fun row1 hs => ?_)
  subst hs
  refine nativeSat_bind (nativeSat_liftRes (resSat_eq_of_ok rfl)) (fun row1 hs => ?_)
  subst hs
  refine nativeSat_bind (nativeSat_liftRes (resSat_eq_of_ok rfl)) (fun row1 hs => ?_)
  subst hs
  refine nativeSat_bind (nativeSat_liftRes (resSat_eq_of_ok rfl)) (fun frame hs => ?_)
  subst hs
  refine nativeSat_bind (nativeSat_liftRes (resSat_eq_of_ok rfl)) (fun row2 hs => ?_)
  subst hs
  refine nativeSat_bind (nativeSat_liftRes (resSat_eq_of_ok rfl)) (fun row2 hs => ?_)
  subst hs
  refine nativeSat_bind (nativeSat_liftRes (resSat_eq_of_ok rfl)) (fun row2 hs => ?_)
  subst hs
  refine nativeSat_bind (nativeSat_liftRes (resSat_eq_of_ok rfl)) (fun frame hs => ?_)
  subst hs
  -- lines 258-270
  refine nativeSat_bind (nativeSat_liftRes (rcppFunction_create_sat U fnvec)) (fun vfunc hvf => ?_)
  obtain ⟨f, hfn, rfl⟩ := hvf
  refine nativeSat_bind (nativeSat_liftRes (resSat_eq_of_ok vecInput_loop)) (fun vecInput hs => ?_)
  subst hs
  refine nativeSat_bind (getSum_sat U f _ (fun hU => H2 hU f hfn)) (fun vecSum _ => ?_)
  refine nativeSat_bind (nativeSat_Rprintf (Q := fun _ => True) trivial) (fun _ _ => ?_)
  refine nativeSat_bind (nativeSat_liftRes (rcppFunction_create_sat U fnlist)) (fun lfunc hlf => ?_)
  obtain ⟨g, hgn, rfl⟩ := hlf
  refine nativeSat_bind (addOne_sat U g _ _ _) (fun vecOut hvo => ?_)
  have hlen : ¬U → 3 ≤ vecOut.1.length := fun hU => H3 hU g _ hgn hvo
  refine nativeSat_bind (nativeSat_liftRes (uncheckedGet_sat U _ 0 (fun hU => by have := hlen hU; omega)))
    (fun out0 _ => ?_)
  refine nativeSat_bind (nativeSat_liftRes (uncheckedGet_sat U _ 1 (fun hU => by have := hlen hU; omega)))
    (fun out1 _ => ?_)
  refine nativeSat_bind (nativeSat_liftRes (uncheckedGet_sat U _ 2 (fun hU => by have := hlen hU; omega)))
    (fun out2 _ => ?_)
  refine nativeSat_bind (nativeSat_Rprintf (Q := fun _ => True) trivial) (fun _ _ => ?_)
  -- lines 275-302
  rw [RcppResultSet.empty]
  refine nativeSat_bind (nativeSat_liftRes (resSat_eq_of_ok (rcppResultSet_add_eq _ _ _))) (fun rs hs => ?_)
  subst hs
  refine nativeSat_bind (nativeSat_liftRes (resSat_eq_of_ok (rcppResultSet_add_eq _ _ _))) (fun rs hs => ?_)
  subst hs
  refine nativeSat_bind (nativeSat_liftRes (resSat_eq_of_ok (rcppResultSet_add_eq _ _ _))) (fun rs hs => ?_)
  subst hs
  refine nativeSat_bind (nativeSat_liftRes (resSat_eq_of_ok (rcppResultSet_add_eq _ _ _))) (fun rs hs => ?_)
  subst hs
  refine nativeSat_bind (nativeSat_liftRes (resSat_eq_of_ok (rcppResultSet_add_eq _ _ _))) (fun rs hs => ?_)
  subst hs
  refine nativeSat_bind (nativeSat_liftRes (resSat_of_ne (rcppNumList_getName_ne _ _))) (fun nlFirstName _ => ?_)
  refine nativeSat_bind (nativeSat_liftRes (resSat_eq_of_ok (rcppResultSet_add_eq _ _ _))) (fun rs hs => ?_)
  subst hs
  refine nativeSat_bind (nativeSat_liftRes (resSat_of_ne (rcppNumList_getValue_ne _ _))) (fun nlFirstValue _ => ?_)
  refine nativeSat_bind (nativeSat_liftRes (resSat_eq_of_ok (rcppResultSet_add_eq _ _ _))) (fun rs hs => ?_)
  subst hs
  refine nativeSat_bind (nativeSat_liftRes (resSat_eq_of_ok (rcppResultSet_add_eq _ _ _))) (fun rs hs => ?_)
  subst hs
  refine nativeSat_bind (nativeSat_liftRes (resSat_eq_of_ok (rcppResultSet_add_eq _ _ _))) (fun rs hs => ?_)
  subst hs
  refine nativeSat_bind (nativeSat_liftRes (resSat_of_ne (ofStlMatrix_ne _))) (fun stlmatValue _ => ?_)
  refine nativeSat_bind (nativeSat_liftRes (resSat_eq_of_ok (rcppResultSet_add_eq _ _ _))) (fun rs hs => ?_)
  subst hs
  refine nativeSat_bind (nativeSat_liftRes (resSat_eq_of_ok (ofCMatrix_eq _ dim2 hrows2))) (fun aValue hs => ?_)
  subst hs
  refine nativeSat_bind (nativeSat_liftRes (resSat_eq_of_ok (rcppResultSet_add_eq _ _ _))) (fun rs hs => ?_)
  subst hs
  have hcv := ofCVector_eq (vecD.map (fun y => ((3 : Int) : D) * y))
  rw [List.length_map] at hcv
  refine nativeSat_bind (nativeSat_liftRes (resSat_eq_of_ok hcv)) (fun vValue hs => ?_)
  subst hs
  refine nativeSat_bind (nativeSat_liftRes (resSat_eq_of_ok (rcppResultSet_add_eq _ _ _))) (fun rs hs => ?_)
  subst hs
  refine nativeSat_bind (nativeSat_liftRes (resSat_eq_of_ok (rcppResultSet_add_eq _ _ _))) (fun rs hs => ?_)
  subst hs
  refine nativeSat_bind (nativeSat_liftRes (resSat_eq_of_ok (rcppResultSet_add_eq _ _ _))) (fun rs hs => ?_)
  subst hs
  refine nativeSat_bind (nativeSat_liftRes (resSat_eq_of_ok (rcppResultSet_add_eq _ _ _))) (fun rs hs => ?_)
  subst hs
  refine nativeSat_bind (nativeSat_liftRes (resSat_eq_of_ok (rcppResultSet_add_eq _ _ _))) (fun rs hs => ?_)
  subst hs
  refine nativeSat_bind (nativeSat_liftRes (resSat_eq_of_ok (rcppResultSet_add_eq _ _ _))) (fun rs hs => ?_)
  subst hs
  refine nativeSat_pure ⟨_, rfl, ?_⟩
  simp [Rcpp_Example.entryNames]

/-! ## The zero-row matrix, the boundary and `classicRcppDateExample` -/

/-- On a matrix without rows the read `stlmat[0]` of line 185 is outside the
container. -/
theorem tryBlock_zero_rows {D : Type} [Add D] [Mul D] [IntCast D] [OfScientific D]
    (ps : List (String × SEXP D)) (method : String) (tolerance : D)
    (maxIter : Int) (startDate : RcppDate) (nlist : SEXP D) (nl : List (String × D))
    (x : List D) (c : Nat) (df : SEXP D) (dates : List RcppDate)
    (strs : List String) (fnvec fnlist : SEXP D) (w : World D)
    (hmethod : ps.lookup "method" = some (.string method))
    (htol : ps.lookup "tolerance" = some (.real tolerance))
    (hiter : ps.lookup "maxIter" = some (.integer maxIter))
    (hdate : ps.lookup "startDate" = some (.date startDate))
    (hnl : RcppNumList.create nlist = .ok nl) :
    Rcpp_Example.tryBlock (.list ps) nlist (.realVector x) (.matrix 0 c []) df
        (.dateVector dates) (.stringVector strs) fnvec fnlist w =
      (.undefined,
        { w with out := w.out ++
            [.parsingStartDate startDate.getMonth startDate.getDay startDate.getYear] }) := by
  have hcreate : RcppMatrix.create (SEXP.matrix 0 c ([] : List (List D))) =
      .ok { dim1 := 0, dim2 := c, a := [] } := by
    simp [RcppMatrix.create]
  have hvec := forLoop_checked_map (fun y => ((3 : Int) : D) * y) x
  have hstl := forLoop_unchecked_map (fun y => y + ((1 : Int) : D))
    (x.map (fun y => ((3 : Int) : D) * y))
  simp only [List.length_map] at hstl
  have hu0 : uncheckedGet ([] : List (List D)) 0 = .undefined := rfl
  simp only [Rcpp_Example.tryBlock, native_bind_apply, liftRes_apply, Rprintf_apply,
    native_pure_apply, RcppParams.create, RcppParams.getStringValue,
    RcppParams.getDoubleValue, RcppParams.getIntValue, RcppParams.getDateValue,
    hmethod, htol, hiter, hdate, RcppDateVector.create, RcppStringVector.create, hnl,
    RcppVector.create, hcreate, forLoop_zero, res_pure_eq, hvec, List.length_map, hstl, hu0]

/-- The loop of lines 36-39 of classicRcppDateExample.cpp. -/
theorem forLoop_dates {D : Type} (dv : List RcppDate) (w : World D) :
    forLoop (m := Native D) (fun i dv => do
        let d ← liftRes (checkedGet dv i)
        Rprintf (.dateValue d)
        let d ← liftRes (checkedGet dv i)
        liftRes (checkedSet dv i (d + (7 : Int)))) dv.length 0 dv w =
      (.ok (dv.map (fun d => d + (7 : Int))),
        { w with out := w.out ++ dv.map (fun d => (Printed.dateValue d : Printed D)) }) := by
  have := forLoop_map_print (D := D)
    (fun i dv => do
        let d ← liftRes (checkedGet dv i)
        Rprintf (.dateValue d)
        let d ← liftRes (checkedGet dv i)
        liftRes (checkedSet dv i (d + (7 : Int))))
    (fun d => d + (7 : Int)) (fun d => Printed.dateValue d)
    (fun pre x post w => by simp) dv [] w
  simpa using this

/-- The loop of lines 41-44 of classicRcppDateExample.cpp. -/
theorem forLoop_datetimes {D : Type} [Add D] (shift : D) (dtv : List D) (w : World D) :
    forLoop (m := Native D) (fun i dtv => do
        let t ← liftRes (checkedGet dtv i)
        Rprintf (.datetimeValue t)
        let t ← liftRes (checkedGet dtv i)
        liftRes (checkedSet dtv i (t + shift))) dtv.length 0 dtv w =
      (.ok (dtv.map (fun t => t + shift)),
        { w with out := w.out ++ dtv.map (fun t => (Printed.datetimeValue t : Printed D)) }) := by
  have := forLoop_map_print (D := D)
    (fun i dtv => do
        let t ← liftRes (checkedGet dtv i)
        Rprintf (.datetimeValue t)
        let t ← liftRes (checkedGet dtv i)
        liftRes (checkedSet dtv i (t + shift)))
    (fun t => t + shift) (fun t => Printed.datetimeValue t)
    (fun pre x post w => by simp) dtv [] w
  simpa using this

theorem dateExample_run {D : Type} [Add D] [OfScientific D]
    (dv : List RcppDate) (dtv : List D) (w : World D) :
    classicRcppDateExample.tryBlock (.dateVector dv) (.datetimeVector dtv) w =
      (.ok (.list
        [("date", .dateVector (dv.map (fun d => d + (7 : Int)))),
         ("datetime", .datetimeVector (dtv.map (fun t => t + (0.250 : D))))]),
       { w with out := w.out ++ [.seeingDates] ++ dv.map (fun d => Printed.dateValue d) ++
          [.seeingDatetimes] ++ dtv.map (fun t => Printed.datetimeValue t) }) := by
  simp only [classicRcppDateExample.tryBlock, native_bind_apply, liftRes_apply, Rprintf_apply,
    native_pure_apply, RcppDateVector.create, RcppDatetimeVector.create, forLoop_dates,
    forLoop_datetimes, RcppResultSet.empty, RcppResultSet.add, RcppResultSet.getReturnList,
    Bool.false_eq_true, if_false, List.nil_append, List.cons_append, List.append_assoc]

/-- Whatever the arguments, the `try` block of `classicRcppDateExample` returns
the two named entries or throws a `std::exception`. -/
theorem dateExample_cases {D : Type} [Add D] [OfScientific D]
    (dvsexp dtvsexp : SEXP D) (w : World D) :
    (∃ dv dtv, dvsexp = .dateVector dv ∧ dtvsexp = .datetimeVector dtv) ∨
    (∃ kind what w1, classicRcppDateExample.tryBlock dvsexp dtvsexp w =
      (.throw (.stdException kind what), w1)) := by
  cases dvsexp with
  | dateVector dv =>
    cases dtvsexp with
    | datetimeVector dtv => exact Or.inl ⟨dv, dtv, rfl, rfl⟩
    | _ =>
      right
      simp [classicRcppDateExample.tryBlock, RcppDateVector.create,
        RcppDatetimeVector.create, typeMismatch]
  | _ =>
    right
    simp [classicRcppDateExample.tryBlock, RcppDateVector.create, typeMismatch]

/-! ## The scenario run -/

/-- Whatever a `try` block did short of undefined behaviour, the boundary
returns its list or raises one error. -/
theorem returnsOrRaises_hostBoundary {D : Type} (block : Res (SEXP D) × World D)
    (h : block.1 ≠ .undefined) : ReturnsOrRaises block (hostBoundary block) := by
  obtain ⟨r, w1⟩ := block
  cases r with
  | ok rl => exact Or.inl ⟨rl, w1, rfl, rfl⟩
  | throw e =>
    cases e with
    | stdException kind what => exact Or.inr (Or.inl ⟨kind, what, w1, rfl, rfl⟩)
    | other => exact Or.inr (Or.inr ⟨w1, rfl, rfl⟩)
  | undefined => exact absurd rfl h

theorem hostBoundary_returned_iff {D : Type} (block : Res (SEXP D) × World D) (rl : SEXP D)
    (w1 : World D) : hostBoundary block = (.returned rl, w1) ↔ block = (.ok rl, w1) := by
  obtain ⟨r, w2⟩ := block
  cases r with
  | ok rl2 => simp [hostBoundary, raiseOrReturn]
  | throw e => cases e <;> simp [hostBoundary, raiseOrReturn]
  | undefined => simp [hostBoundary]

theorem tryBlock_defined {D : Type} [Add D] [Mul D] [IntCast D] [OfScientific D]
    (params nlist numvec nummat df datevec stringvec fnvec fnlist : SEXP D) (w : World D)
    (H1 : ∀ c, nummat ≠ .matrix 0 c [])
    (H2 : ∀ f, fnvec = .closure f → f (.vector Rcpp_Example.vecInput) ≠ .ok [])
    (H3 : ∀ g r, fnlist = .closure g →
      g (.namedList Rcpp_Example.listArg) = .ok r → 3 ≤ r.length) :
    (Rcpp_Example.tryBlock params nlist numvec nummat df datevec stringvec fnvec fnlist w).1 ≠
      .undefined := by
  have h := tryBlock_sat False params nlist numvec nummat df datevec stringvec fnvec fnlist
    (fun _ => H1) (fun _ => H2) (fun _ => H3) w
  intro hu
  rw [hu] at h
  exact h

theorem dateExample_defined {D : Type} [Add D] [OfScientific D]
    (dvsexp dtvsexp : SEXP D) (w : World D) :
    (classicRcppDateExample.tryBlock dvsexp dtvsexp w).1 ≠ .undefined := by
  rcases dateExample_cases dvsexp dtvsexp w with ⟨dv, dtv, rfl, rfl⟩ | ⟨kind, what, w1, h⟩
  · rw [dateExample_run]; simp
  · rw [h]; simp


theorem vecInput_rat : (Rcpp_Example.vecInput : List ℚ) = [0, 1, 2, 3, 4, 5, 6, 7, 8, 9] := by
  simp [Rcpp_Example.vecInput, List.range, List.range.loop]

theorem listArg_rat :
    (Rcpp_Example.listArg : List (String × ℚ)) = [("alpha", 1), ("beta", 2), ("gamma", 3)] := by
  simp [Rcpp_Example.listArg]

theorem sumOfElements_vecInput :
    sumOfElements (.vector Rcpp_Example.vecInput) = .ok [45] := by
  rw [vecInput_rat]
  simp [sumOfElements]
  norm_num

theorem addOneToEach_listArg :
    addOneToEach (.namedList Rcpp_Example.listArg) = .ok [2, 3, 4] := by
  rw [listArg_rat]
  simp [addOneToEach]
  norm_num

/-- The scenario run of `Rcpp_Example`, evaluated. -/
theorem scenarioRun_eq :
    scenarioRun scenarioMatrix (.closure sumOfElements) (.closure addOneToEach) =
      (.returned (.list
        [("date", .date (RcppDate.ofMDY 12 25 1999)),
         ("dateVec", .dateVector [RcppDate.ofMDY 1 1 2000]),
         ("method", .string "secant"),
         ("tolerance", .real 0.0001),
         ("maxIter", .integer 100),
         ("nlFirstName", .string "ibm"),
         ("nlFirstValue", .real 80.5),
         ("matD", .matrix 2 3 [[2, 4, 6], [8, 10, 12]]),
         ("stlvec", .realVector [4, 7, 10]),
         ("stlmat", .matrix 2 3 [[4, 6, 8], [10, 12, 14]]),
         ("a", .matrix 2 3 [[2, 4, 6], [8, 10, 12]]),
         ("v", .realVector [3, 6, 9]),
         ("stringVec", .stringVector ["a", "b"]),
         ("strings", .stringVector ["hello", "world"]),
         ("InputDF", .dataFrame ["x", "y"]
            [[.integer 1, .string "a"], [.integer 2, .string "b"]]),
         ("PreDF", .dataFrame ["alpha", "beta", "gamma"]
            [[.string "a", .real 3.14, .date (RcppDate.ofMDY 7 4 2006)],
             [.string "b", .real 6.28, .date (RcppDate.ofMDY 12 25 2006)]]),
         ("params", .list scenarioParams)]),
       { pstack := [],
         calls := [.vector [0, 1, 2, 3, 4, 5, 6, 7, 8, 9],
                   .namedList [("alpha", 1), ("beta", 2), ("gamma", 3)]],
         out := [.parsingStartDate 12 25 1999, .vecSum 45, .listOut 2 3 4],
         log := [.read 45, .release [.realVector [0, 1, 2, 3, 4, 5, 6, 7, 8, 9]],
                 .read 2, .read 3, .read 4,
                 .release [.real 3, .real 2, .real 1, .list 3]] }) := by
  have h := tryBlock_run (D := ℚ) scenarioParams "secant" 0.0001 100 (RcppDate.ofMDY 12 25 1999)
    (.list [("ibm", .real 80.5), ("hp", .real 53.64)]) "ibm" 80.5 [("hp", 53.64)]
    [1, 2, 3] 3 [[1, 2, 3], [4, 5, 6]] [1, 2, 3]
    (.dataFrame ["x", "y"] [[.integer 1, .string "a"], [.integer 2, .string "b"]])
    ⟨["x", "y"], [[.integer 1, .string "a"], [.integer 2, .string "b"]]⟩
    [RcppDate.ofMDY 1 1 2000] ["a", "b"] sumOfElements addOneToEach emptyWorld
    rfl rfl rfl rfl rfl (by decide) rfl rfl
  rw [sumOfElements_vecInput, addOneToEach_listArg] at h
  have hd : (RcppDate.ofMDY 12 25 1999).getMonth = 12 ∧
      (RcppDate.ofMDY 12 25 1999).getDay = 25 ∧ (RcppDate.ofMDY 12 25 1999).getYear = 1999 := by
    decide
  simp only [scenarioRun, scenarioMatrix, Rcpp_Example]
  simp only [List.length_cons, List.length_nil] at h
  rw [h]
  simp only [hostBoundary, raiseOrReturn, emptyWorld, hd.1, hd.2.1, hd.2.2, vecInput_rat,
    listArg_rat]
  norm_num

/-- The valid run of `Rcpp_Example`: with a decodable bundle, numeric list,
vector, matrix with at least one row, data frame, date and string vectors, and
callbacks that return at least one and at least three elements, the entry point
returns the list of its seventeen entries. -/
theorem Rcpp_Example_valid {D : Type} [Add D] [Mul D] [IntCast D] [OfScientific D]
    (ps : List (String × SEXP D)) (method : String) (tolerance : D)
    (maxIter : Int) (startDate : RcppDate) (nlist : SEXP D) (name0 : String) (value0 : D)
    (nlRest : List (String × D)) (x : List D) (r c : Nat) (rows : List (List D))
    (df : SEXP D) (inframe : RcppFrame D) (dates : List RcppDate)
    (strs : List String) (f g : HostFn D) (s0 : D) (sRest : List D) (o0 o1 o2 : D)
    (oRest : List D) (w : World D)
    (hmethod : ps.lookup "method" = some (.string method))
    (htol : ps.lookup "tolerance" = some (.real tolerance))
    (hiter : ps.lookup "maxIter" = some (.integer maxIter))
    (hdate : ps.lookup "startDate" = some (.date startDate))
    (hnl : RcppNumList.create nlist = .ok ((name0, value0) :: nlRest))
    (hr : rows.length = r) (hpos : 1 ≤ r)
    (hrows : ∀ row ∈ rows, row.length = c)
    (hdf : RcppFrame.ofSEXP df = .ok inframe)
    (hf : f (.vector Rcpp_Example.vecInput) = .ok (s0 :: sRest))
    (hg : g (.namedList Rcpp_Example.listArg) = .ok (o0 :: o1 :: o2 :: oRest)) :
    Rcpp_Example (.list ps) nlist (.realVector x) (.matrix r c rows) df
        (.dateVector dates) (.stringVector strs) (.closure f) (.closure g) w =
      (.returned (.list
        [("date", .date (RcppDate.ofMDY 12 25 1999)),
         ("dateVec", .dateVector dates),
         ("method", .string method),
         ("tolerance", .real tolerance),
         ("maxIter", .integer maxIter),
         ("nlFirstName", .string name0),
         ("nlFirstValue", .real value0),
         ("matD", .matrix r c (rows.map (List.map (fun y => ((2 : Int) : D) * y)))),
         ("stlvec", .realVector
            ((x.map (fun y => ((3 : Int) : D) * y)).map (fun y => y + ((1 : Int) : D)))),
         ("stlmat", .matrix r c
            ((rows.map (List.map (fun y => ((2 : Int) : D) * y))).map
              (List.map (fun y => y + ((2 : Int) : D))))),
         ("a", .matrix r c (rows.map (List.map (fun y => ((2 : Int) : D) * y)))),
         ("v", .realVector (x.map (fun y => ((3 : Int) : D) * y))),
         ("stringVec", .stringVector strs),
         ("strings", .stringVector ["hello", "world"]),
         ("InputDF", .dataFrame inframe.colNames inframe.table),
         ("PreDF", .dataFrame ["alpha", "beta", "gamma"]
            [[.string "a", .real 3.14, .date (RcppDate.ofMDY 7 4 2006)],
             [.string "b", .real 6.28, .date (RcppDate.ofMDY 12 25 2006)]]),
         ("params", .list ps)]),
       { pstack := w.pstack,
         calls := w.calls ++
           [.vector Rcpp_Example.vecInput, .namedList Rcpp_Example.listArg],
         out := w.out ++
           [.parsingStartDate startDate.getMonth startDate.getDay startDate.getYear,
            .vecSum s0, .listOut o0 o1 o2],
         log := w.log ++ ([.read s0, .release [.realVector Rcpp_Example.vecInput]] ++
           (o0 :: o1 :: o2 :: oRest).map .read ++
           [.release [.real ((3 : Int) : D), .real ((2 : Int) : D), .real ((1 : Int) : D), .list 3]]) }) := by
  subst hr
  obtain ⟨row0, h0⟩ : ∃ row0, rows[0]? = some row0 := by
    cases rows with
    | nil => simp at hpos
    | cons row0 rest => exact ⟨row0, by simp⟩
  rw [Rcpp_Example, tryBlock_run ps method tolerance maxIter startDate nlist name0 value0 nlRest
    x c rows row0 df inframe dates strs f g w hmethod htol hiter hdate hnl hrows h0 hdf, hf, hg]
  rfl

theorem scenarioMatrix_has_rows : ∀ c, scenarioMatrix ≠ SEXP.matrix 0 c [] := by
  intro c h
  simp [scenarioMatrix] at h

theorem sumOfElements_nonempty :
    ∀ f, SEXP.closure sumOfElements = SEXP.closure f →
      f (HostArg.vector Rcpp_Example.vecInput) ≠ Except.ok [] := by
  intro f h
  injection h with h
  subst h
  rw [sumOfElements_vecInput]
  simp

theorem addOneToEach_three :
    ∀ g r, SEXP.closure addOneToEach = SEXP.closure g →
      g (HostArg.namedList Rcpp_Example.listArg) = Except.ok r → 3 ≤ r.length := by
  intro g r h hr
  injection h with h
  subst h
  rw [addOneToEach_listArg] at hr
  injection hr with hr
  subst hr
  simp

/-! ## The claims -/

/-- C1: for every host function `f` and every sequence `v`, `getSum` on a
freshly built `MyRVectorFunc(f)` makes exactly one host call, with `v` packed as
the single vector argument, and returns element 0 of the result of `f` (an
empty result makes that read undefined and a host error is thrown on); with
"sum of elements" and the vector 0, 1, ..., 9 that `Rcpp_Example` builds the
value is 45, which is what `Rcpp_Example` prints. -/
theorem getSum_returns_element_zero :
    (∀ (D : Type) (f : HostFn D) (v : List D) (w : World D),
      MyRVectorFunc (SEXP.closure f) = Res.ok (RcppFunction.wrap f) ∧
      (getSum (RcppFunction.wrap f) v w).2.calls = w.calls ++ [HostArg.vector v] ∧
      (getSum (RcppFunction.wrap f) v w).1 =
        match f (HostArg.vector v) with
        | Except.ok (x :: _) => Res.ok (x, RcppFunction.wrap f)
        | Except.ok [] => Res.undefined
        | Except.error cause =>
          Res.throw (CppException.stdException ErrorKind.callbackError cause)) ∧
    (Rcpp_Example.vecInput : List ℚ) = [0, 1, 2, 3, 4, 5, 6, 7, 8, 9] ∧
    (∀ w : World ℚ,
      (getSum (RcppFunction.wrap sumOfElements) Rcpp_Example.vecInput w).1 =
        Res.ok (45, RcppFunction.wrap sumOfElements)) ∧
    (scenarioRun scenarioMatrix (SEXP.closure sumOfElements)
        (SEXP.closure addOneToEach)).2.calls.head? =
      some (HostArg.vector [0, 1, 2, 3, 4, 5, 6, 7, 8, 9]) ∧
    Printed.vecSum 45 ∈
      (scenarioRun scenarioMatrix (SEXP.closure sumOfElements)
        (SEXP.closure addOneToEach)).2.out := by
  refine ⟨fun D f v w => ⟨rfl, ?_, ?_⟩, vecInput_rat, fun w => ?_, ?_, ?_⟩
  · rw [getSum_eq]
    rcases f (.vector v) with c | r
    · rfl
    · cases r <;> rfl
  · rw [getSum_eq]
    rcases f (.vector v) with c | r
    · rfl
    · cases r <;> rfl
  · rw [getSum_eq, sumOfElements_vecInput]
  · rw [scenarioRun_eq]; rfl
  · rw [scenarioRun_eq]; simp

/-- C2: for every host function `f` and all reals `alpha`, `beta`, `gamma`,
`addOne` on a freshly built `MyRListFunc(f)` makes exactly one host call, on the
named list `[("alpha", alpha), ("beta", beta), ("gamma", gamma)]` in that order,
and returns the result of `f` as it is, whatever its length (a host error is
thrown on); with "add 1 to each" and the arguments 1, 2, 3 the result is
`[2, 3, 4]`. -/
theorem addOne_returns_host_result :
    (∀ (D : Type) [IntCast D] (f : HostFn D) (alpha beta gamma : D) (w : World D),
      MyRListFunc (SEXP.closure f) = Res.ok (RcppFunction.wrap f) ∧
      (addOne (RcppFunction.wrap f) alpha beta gamma w).2.calls =
        w.calls ++ [HostArg.namedList [("alpha", alpha), ("beta", beta), ("gamma", gamma)]] ∧
      (addOne (RcppFunction.wrap f) alpha beta gamma w).1 =
        match f (HostArg.namedList [("alpha", alpha), ("beta", beta), ("gamma", gamma)]) with
        | Except.ok result => Res.ok (result, RcppFunction.wrap f)
        | Except.error cause =>
          Res.throw (CppException.stdException ErrorKind.callbackError cause)) ∧
    (∀ w : World ℚ,
      (addOne (RcppFunction.wrap addOneToEach) 1 2 3 w).1 =
        Res.ok ([2, 3, 4], RcppFunction.wrap addOneToEach)) ∧
    Printed.listOut 2 3 4 ∈
      (scenarioRun scenarioMatrix (SEXP.closure sumOfElements)
        (SEXP.closure addOneToEach)).2.out := by
  refine ⟨fun D _ f alpha beta gamma w => ⟨rfl, ?_, ?_⟩, fun w => ?_, ?_⟩
  · rw [addOne_eq]
    rcases f (.namedList [("alpha", alpha), ("beta", beta), ("gamma", gamma)]) with c | r <;> rfl
  · rw [addOne_eq]
    rcases f (.namedList [("alpha", alpha), ("beta", beta), ("gamma", gamma)]) with c | r <;> rfl
  · have h := addOneToEach_listArg
    rw [listArg_rat] at h
    rw [addOne_eq, h]
  · rw [scenarioRun_eq]; simp

/-- C3: for every date vector `dv` and datetime vector `dtv`,
`classicRcppDateExample` returns the list of the two entries "date" and
"datetime"; the first has the length of `dv` and its element `i` is `dv[i]`
advanced by 7 days, the second has the length of `dtv` and its element `i` is
`dtv[i] + 0.25`; empty vectors give empty entries. -/
theorem classicRcppDateExample_shifts_every_element {D : Type} [Add D] [OfScientific D]
    (dv : List RcppDate) (dtv : List D) (w : World D) :
    ∃ (ds : List RcppDate) (ts : List D),
      (classicRcppDateExample (SEXP.dateVector dv) (SEXP.datetimeVector dtv) w).1 =
        Outcome.returned
          (SEXP.list [("date", SEXP.dateVector ds), ("datetime", SEXP.datetimeVector ts)]) ∧
      ds.length = dv.length ∧ ts.length = dtv.length ∧
      (∀ i : Nat, ds[i]? = (dv[i]?).map (fun (d : RcppDate) => d + (7 : Int))) ∧
      (∀ i : Nat, (ds[i]?).map RcppDate.jdn = (dv[i]?).map (fun (d : RcppDate) => d.jdn + 7)) ∧
      (∀ i : Nat, ts[i]? = (dtv[i]?).map (fun t => t + (0.250 : D))) := by
  refine ⟨dv.map (fun (d : RcppDate) => d + (7 : Int)), dtv.map (fun t => t + (0.250 : D)), ?_, ?_, ?_,
    ?_, ?_, ?_⟩
  · rw [classicRcppDateExample, dateExample_run]
    rfl
  · simp
  · simp
  · intro i; simp
  · intro i
    simp only [List.getElem?_map, Option.map_map]
    rfl
  · intro i; simp

/-- C8, as claimed, fails: a failing host function leaves the handles the call
contributed on the protection stack when the failure leaves `getSum` or
`addOne`. -/
theorem failed_callback_keeps_handles_counterexample :
    ((getSum (RcppFunction.wrap failingHostFn) [1, 2] callerWorld).1 =
        Res.throw (CppException.stdException ErrorKind.callbackError "error in host function") ∧
      ¬ ((getSum (RcppFunction.wrap failingHostFn) [1, 2] callerWorld).2.pstack =
          callerWorld.pstack)) ∧
    ((addOne (RcppFunction.wrap failingHostFn) 1 2 3 callerWorld).1 =
        Res.throw (CppException.stdException ErrorKind.callbackError "error in host function") ∧
      ¬ ((addOne (RcppFunction.wrap failingHostFn) 1 2 3 callerWorld).2.pstack =
          callerWorld.pstack)) := by
  constructor
  · rw [getSum_eq]
    simp [failingHostFn, callerWorld]
  · rw [addOne_eq]
    simp [failingHostFn, callerWorld]

/-- C8 as amended: when the host function invocation fails, `getSum` and
`addOne` do not reach `clearProtectionStack`; the failure is thrown on to the
caller as a `CallbackError` carrying the cause, and the handles the call
contributed (the packed vector; the list and its three scalars) are still on
the protection stack, above the caller's entries, which are untouched. -/
theorem failed_callback_propagates_and_keeps_handles :
    (∀ (D : Type) (f : HostFn D) (v : List D) (w : World D) (cause : String),
      f (HostArg.vector v) = Except.error cause →
        (getSum (RcppFunction.wrap f) v w).1 =
          Res.throw (CppException.stdException ErrorKind.callbackError cause) ∧
        (getSum (RcppFunction.wrap f) v w).2.pstack = Handle.realVector v :: w.pstack) ∧
    (∀ (D : Type) [IntCast D] (f : HostFn D) (alpha beta gamma : D) (w : World D)
      (cause : String),
      f (HostArg.namedList [("alpha", alpha), ("beta", beta), ("gamma", gamma)]) =
          Except.error cause →
        (addOne (RcppFunction.wrap f) alpha beta gamma w).1 =
          Res.throw (CppException.stdException ErrorKind.callbackError cause) ∧
        (addOne (RcppFunction.wrap f) alpha beta gamma w).2.pstack =
          Handle.real gamma :: Handle.real beta :: Handle.real alpha :: Handle.list 3 ::
            w.pstack) := by
  constructor
  · intro D f v w cause h
    rw [getSum_eq, h]
    exact ⟨rfl, rfl⟩
  · intro D _ f alpha beta gamma w cause h
    rw [addOne_eq, h]
    exact ⟨rfl, rfl⟩

/-- Witness of the amended C8 on the failing host function. -/
theorem failed_callback_propagates_and_keeps_handles_witness :
    ((getSum (RcppFunction.wrap failingHostFn) [1, 2] callerWorld).1 =
        Res.throw (CppException.stdException ErrorKind.callbackError "error in host function") ∧
      (getSum (RcppFunction.wrap failingHostFn) [1, 2] callerWorld).2.pstack =
        Handle.realVector [1, 2] :: callerWorld.pstack) ∧
    ((addOne (RcppFunction.wrap failingHostFn) 1 2 3 callerWorld).1 =
        Res.throw (CppException.stdException ErrorKind.callbackError "error in host function") ∧
      (addOne (RcppFunction.wrap failingHostFn) 1 2 3 callerWorld).2.pstack =
        Handle.real 3 :: Handle.real 2 :: Handle.real 1 :: Handle.list 3 ::
          callerWorld.pstack) :=
  ⟨failed_callback_propagates_and_keeps_handles.1 ℚ failingHostFn [1, 2] callerWorld
      "error in host function" rfl,
   failed_callback_propagates_and_keeps_handles.2 ℚ failingHostFn 1 2 3 callerWorld
      "error in host function" rfl⟩

/-- C4, as claimed for every input, fails: on a matrix without rows
`Rcpp_Example` neither returns a list nor raises an error, because the read
`stlmat[0]` of line 185 is outside the container and nothing catches that. -/
theorem zero_row_matrix_counterexample :
    ¬ ((∃ rl, (scenarioRun (SEXP.matrix 0 3 []) (SEXP.closure sumOfElements)
          (SEXP.closure addOneToEach)).1 = Outcome.returned rl) ∨
       (∃ message, (scenarioRun (SEXP.matrix 0 3 []) (SEXP.closure sumOfElements)
          (SEXP.closure addOneToEach)).1 = Outcome.error message)) := by
  have h := tryBlock_zero_rows (D := ℚ) scenarioParams "secant" 0.0001 100
    (RcppDate.ofMDY 12 25 1999) (.list [("ibm", .real 80.5), ("hp", .real 53.64)])
    [("ibm", 80.5), ("hp", 53.64)] [1, 2, 3] 3
    (.dataFrame ["x", "y"] [[.integer 1, .string "a"], [.integer 2, .string "b"]])
    [RcppDate.ofMDY 1 1 2000] ["a", "b"] (.closure sumOfElements) (.closure addOneToEach)
    emptyWorld rfl rfl rfl rfl rfl
  simp only [scenarioRun, Rcpp_Example, h, hostBoundary]
  simp

/-- C4 as amended: on every input on which no unchecked access leaves its
container (for `Rcpp_Example`: the matrix argument is not a matrix without rows,
the vector callback does not return an empty vector and the list callback does
not return fewer than three elements; for `classicRcppDateExample`: every
input) the entry point ends in exactly one of two ways: it returns the list its
`try` block finalized and raises nothing, or it raises one host-visible error
and returns nothing. The error carries the message of the caught
`std::exception` unchanged, and "unknown reason" when what was thrown has no
message; a bundle without "method" ends in the error of that getter. -/
theorem entry_points_return_or_raise_once {D : Type} [Add D] [Mul D] [IntCast D]
    [OfScientific D] :
    (∀ (params nlist numvec nummat df datevec stringvec fnvec fnlist : SEXP D) (w : World D),
      (∀ c, nummat ≠ SEXP.matrix 0 c []) →
      (∀ f, fnvec = SEXP.closure f → f (HostArg.vector Rcpp_Example.vecInput) ≠ Except.ok []) →
      (∀ g r, fnlist = SEXP.closure g →
        g (HostArg.namedList Rcpp_Example.listArg) = Except.ok r → 3 ≤ r.length) →
      ReturnsOrRaises
        (Rcpp_Example.tryBlock params nlist numvec nummat df datevec stringvec fnvec fnlist w)
        (Rcpp_Example params nlist numvec nummat df datevec stringvec fnvec fnlist w)) ∧
    (∀ (dvsexp dtvsexp : SEXP D) (w : World D),
      ReturnsOrRaises (classicRcppDateExample.tryBlock dvsexp dtvsexp w)
        (classicRcppDateExample dvsexp dtvsexp w)) ∧
    (∀ (ps : List (String × SEXP D))
      (nlist numvec nummat df datevec stringvec fnvec fnlist : SEXP D) (w : World D),
      ps.lookup "method" = none →
        Rcpp_Example (SEXP.list ps) nlist numvec nummat df datevec stringvec fnvec fnlist w =
          (Outcome.error "MissingField: method", w)) ∧
    (∀ (kind : ErrorKind) (what : String) (w : World D),
      hostBoundary ((Res.throw (CppException.stdException kind what) : Res (SEXP D)), w) =
        (Outcome.error what, w)) ∧
    (∀ w : World D,
      hostBoundary ((Res.throw CppException.other : Res (SEXP D)), w) =
        (Outcome.error "unknown reason", w)) := by
  refine ⟨?_, ?_, ?_, fun _ _ _ => rfl, fun _ => rfl⟩
  · intro params nlist numvec nummat df datevec stringvec fnvec fnlist w H1 H2 H3
    exact returnsOrRaises_hostBoundary _
      (tryBlock_defined params nlist numvec nummat df datevec stringvec fnvec fnlist w H1 H2 H3)
  · intro dvsexp dtvsexp w
    exact returnsOrRaises_hostBoundary _ (dateExample_defined dvsexp dtvsexp w)
  · intro ps nlist numvec nummat df datevec stringvec fnvec fnlist w h
    simp only [Rcpp_Example, Rcpp_Example.tryBlock, native_bind_apply, liftRes_apply,
      RcppParams.create, RcppParams.getStringValue, h, missingField, hostBoundary,
      raiseOrReturn, copyMessageToR]
    rfl

/-- Witness of the amended C4: the scenario run satisfies the three
preconditions, and a bundle holding only "tolerance" lacks "method". -/
theorem entry_points_return_or_raise_once_witness :
    ReturnsOrRaises
      (Rcpp_Example.tryBlock (SEXP.list scenarioParams)
        (SEXP.list [("ibm", SEXP.real 80.5), ("hp", SEXP.real 53.64)])
        (SEXP.realVector [1, 2, 3]) scenarioMatrix
        (SEXP.dataFrame ["x", "y"]
          [[ColDatum.integer 1, ColDatum.string "a"], [ColDatum.integer 2, ColDatum.string "b"]])
        (SEXP.dateVector [RcppDate.ofMDY 1 1 2000]) (SEXP.stringVector ["a", "b"])
        (SEXP.closure sumOfElements) (SEXP.closure addOneToEach) emptyWorld)
      (scenarioRun scenarioMatrix (SEXP.closure sumOfElements) (SEXP.closure addOneToEach)) ∧
    Rcpp_Example (SEXP.list [("tolerance", SEXP.real (0.0001 : ℚ))]) SEXP.null SEXP.null
        SEXP.null SEXP.null SEXP.null SEXP.null SEXP.null SEXP.null emptyWorld =
      (Outcome.error "MissingField: method", emptyWorld) :=
  ⟨(entry_points_return_or_raise_once (D := ℚ)).1 _ _ _ _ _ _ _ _ _ emptyWorld
      scenarioMatrix_has_rows sumOfElements_nonempty addOneToEach_three,
   (entry_points_return_or_raise_once (D := ℚ)).2.2.1 [("tolerance", SEXP.real 0.0001)]
      SEXP.null SEXP.null SEXP.null SEXP.null SEXP.null SEXP.null SEXP.null SEXP.null
      emptyWorld rfl⟩

/-- C5: for every bundle that holds a string "method", a real "tolerance", an
integer "maxIter" and a date "startDate" (the other inputs being valid),
`Rcpp_Example` returns a list whose "method", "tolerance" and "maxIter" entries
are the bundle's values, and prints the month, day and year of the decoded start
date; for the bundle of the scenario the getters give "secant", 0.0001, 100 and
a date of month 12, day 25, year 1999, and a getter on a missing name fails with
`MissingField`. -/
theorem Rcpp_Example_returns_bundle_values :
    (∀ (D : Type) [Add D] [Mul D] [IntCast D] [OfScientific D]
      (ps : List (String × SEXP D)) (method : String) (tolerance : D)
      (maxIter : Int) (startDate : RcppDate) (nlist : SEXP D) (name0 : String) (value0 : D)
      (nlRest : List (String × D)) (x : List D) (r c : Nat) (rows : List (List D))
      (df : SEXP D) (inframe : RcppFrame D) (dates : List RcppDate)
      (strs : List String) (f g : HostFn D) (s0 : D) (sRest : List D) (o0 o1 o2 : D)
      (oRest : List D) (w : World D),
      ps.lookup "method" = some (SEXP.string method) →
      ps.lookup "tolerance" = some (SEXP.real tolerance) →
      ps.lookup "maxIter" = some (SEXP.integer maxIter) →
      ps.lookup "startDate" = some (SEXP.date startDate) →
      RcppNumList.create nlist = Res.ok ((name0, value0) :: nlRest) →
      rows.length = r → 1 ≤ r → (∀ row ∈ rows, row.length = c) →
      RcppFrame.ofSEXP df = Res.ok inframe →
      f (HostArg.vector Rcpp_Example.vecInput) = Except.ok (s0 :: sRest) →
      g (HostArg.namedList Rcpp_Example.listArg) = Except.ok (o0 :: o1 :: o2 :: oRest) →
      ∃ entries w1,
        Rcpp_Example (SEXP.list ps) nlist (SEXP.realVector x) (SEXP.matrix r c rows) df
          (SEXP.dateVector dates) (SEXP.stringVector strs) (SEXP.closure f) (SEXP.closure g) w =
          (Outcome.returned (SEXP.list entries), w1) ∧
        entries.lookup "method" = some (SEXP.string method) ∧
        entries.lookup "tolerance" = some (SEXP.real tolerance) ∧
        entries.lookup "maxIter" = some (SEXP.integer maxIter) ∧
        Printed.parsingStartDate startDate.getMonth startDate.getDay startDate.getYear ∈
          w1.out) ∧
    RcppParams.getStringValue { entries := scenarioParams } "method" = Res.ok "secant" ∧
    RcppParams.getDoubleValue { entries := scenarioParams } "tolerance" = Res.ok 0.0001 ∧
    RcppParams.getIntValue { entries := scenarioParams } "maxIter" = Res.ok 100 ∧
    (∃ d, RcppParams.getDateValue { entries := scenarioParams } "startDate" = Res.ok d ∧
      d.getMonth = 12 ∧ d.getDay = 25 ∧ d.getYear = 1999) ∧
    RcppParams.getStringValue { entries := scenarioParams } "missing" =
      Res.throw (CppException.stdException ErrorKind.missingField "MissingField: missing") := by
  refine ⟨?_, rfl, rfl, rfl, ⟨RcppDate.ofMDY 12 25 1999, rfl, ?_, ?_, ?_⟩, rfl⟩
  · intro D _ _ _ _ ps method tolerance maxIter startDate nlist name0 value0 nlRest x r c rows
      df inframe dates strs f g s0 sRest o0 o1 o2 oRest w hmethod htol hiter hdate hnl hr hpos
      hrows hdf hf hg
    refine ⟨_, _, Rcpp_Example_valid ps method tolerance maxIter startDate nlist name0 value0
      nlRest x r c rows df inframe dates strs f g s0 sRest o0 o1 o2 oRest w hmethod htol hiter
      hdate hnl hr hpos hrows hdf hf hg, ?_, ?_, ?_, ?_⟩
    · rfl
    · rfl
    · rfl
    · simp
  · decide
  · decide
  · decide

/-- Witness of C5: the scenario run. -/
theorem Rcpp_Example_returns_bundle_values_witness :
    ∃ entries w1,
      scenarioRun scenarioMatrix (SEXP.closure sumOfElements) (SEXP.closure addOneToEach) =
        (Outcome.returned (SEXP.list entries), w1) ∧
      entries.lookup "method" = some (SEXP.string "secant") ∧
      entries.lookup "tolerance" = some (SEXP.real 0.0001) ∧
      entries.lookup "maxIter" = some (SEXP.integer 100) ∧
      Printed.parsingStartDate (RcppDate.ofMDY 12 25 1999).getMonth
        (RcppDate.ofMDY 12 25 1999).getDay (RcppDate.ofMDY 12 25 1999).getYear ∈ w1.out :=
  Rcpp_Example_returns_bundle_values.1 ℚ scenarioParams "secant" 0.0001 100
    (RcppDate.ofMDY 12 25 1999) (SEXP.list [("ibm", SEXP.real 80.5), ("hp", SEXP.real 53.64)])
    "ibm" 80.5 [("hp", 53.64)] [1, 2, 3] 2 3 [[1, 2, 3], [4, 5, 6]]
    (SEXP.dataFrame ["x", "y"]
      [[ColDatum.integer 1, ColDatum.string "a"], [ColDatum.integer 2, ColDatum.string "b"]])
    { colNames := ["x", "y"],
      table := [[ColDatum.integer 1, ColDatum.string "a"],
                [ColDatum.integer 2, ColDatum.string "b"]] }
    [RcppDate.ofMDY 1 1 2000] ["a", "b"] sumOfElements addOneToEach 45 [] 2 3 4 [] emptyWorld
    rfl rfl rfl rfl rfl rfl (by decide) (by decide) rfl sumOfElements_vecInput
    addOneToEach_listArg

/-- C6: on every run that returns, the returned list has exactly the entries
that were added, in the order of the `add` calls: seventeen for `Rcpp_Example`,
named date, dateVec, method, tolerance, maxIter, nlFirstName, nlFirstValue,
matD, stlvec, stlmat, a, v, stringVec, strings, InputDF, PreDF, params; two for
`classicRcppDateExample`, named date and datetime. -/
theorem returned_lists_hold_the_added_entries {D : Type} [Add D] [Mul D] [IntCast D]
    [OfScientific D] :
    (∀ (params nlist numvec nummat df datevec stringvec fnvec fnlist : SEXP D)
      (w w1 : World D) (rl : SEXP D),
      Rcpp_Example params nlist numvec nummat df datevec stringvec fnvec fnlist w =
          (Outcome.returned rl, w1) →
        ∃ entries, rl = SEXP.list entries ∧ entries.length = 17 ∧
          entries.map Prod.fst =
            ["date", "dateVec", "method", "tolerance", "maxIter", "nlFirstName",
             "nlFirstValue", "matD", "stlvec", "stlmat", "a", "v", "stringVec", "strings",
             "InputDF", "PreDF", "params"]) ∧
    (∀ (dvsexp dtvsexp : SEXP D) (w w1 : World D) (rl : SEXP D),
      classicRcppDateExample dvsexp dtvsexp w = (Outcome.returned rl, w1) →
        ∃ entries, rl = SEXP.list entries ∧ entries.length = 2 ∧
          entries.map Prod.fst = ["date", "datetime"]) := by
  constructor
  · intro params nlist numvec nummat df datevec stringvec fnvec fnlist w w1 rl h
    rw [Rcpp_Example, hostBoundary_returned_iff] at h
    have hs := tryBlock_sat True params nlist numvec nummat df datevec stringvec fnvec fnlist
      (fun hU => absurd trivial hU) (fun hU => absurd trivial hU)
      (fun hU => absurd trivial hU) w
    rw [h] at hs
    obtain ⟨entries, rfl, hnames⟩ := hs
    refine ⟨entries, rfl, ?_, hnames⟩
    have hlen := congrArg List.length hnames
    simpa [Rcpp_Example.entryNames] using hlen
  · intro dvsexp dtvsexp w w1 rl h
    rw [classicRcppDateExample, hostBoundary_returned_iff] at h
    rcases dateExample_cases dvsexp dtvsexp w with ⟨dv, dtv, rfl, rfl⟩ | ⟨kind, what, w2, h2⟩
    · rw [dateExample_run] at h
      injection h with h1 _
      injection h1 with h1
      subst h1
      exact ⟨_, rfl, rfl, rfl⟩
    · rw [h2] at h
      simp at h

/-- Witness of C6: the scenario run of `Rcpp_Example` and a run of
`classicRcppDateExample` on two dates and two timestamps. -/
theorem returned_lists_hold_the_added_entries_witness :
    (∃ entries,
      SEXP.list
        [("date", SEXP.date (RcppDate.ofMDY 12 25 1999)),
         ("dateVec", SEXP.dateVector [RcppDate.ofMDY 1 1 2000]),
         ("method", SEXP.string "secant"),
         ("tolerance", SEXP.real (0.0001 : ℚ)),
         ("maxIter", SEXP.integer 100),
         ("nlFirstName", SEXP.string "ibm"),
         ("nlFirstValue", SEXP.real 80.5),
         ("matD", SEXP.matrix 2 3 [[2, 4, 6], [8, 10, 12]]),
         ("stlvec", SEXP.realVector [4, 7, 10]),
         ("stlmat", SEXP.matrix 2 3 [[4, 6, 8], [10, 12, 14]]),
         ("a", SEXP.matrix 2 3 [[2, 4, 6], [8, 10, 12]]),
         ("v", SEXP.realVector [3, 6, 9]),
         ("stringVec", SEXP.stringVector ["a", "b"]),
         ("strings", SEXP.stringVector ["hello", "world"]),
         ("InputDF", SEXP.dataFrame ["x", "y"]
            [[ColDatum.integer 1, ColDatum.string "a"],
             [ColDatum.integer 2, ColDatum.string "b"]]),
         ("PreDF", SEXP.dataFrame ["alpha", "beta", "gamma"]
            [[ColDatum.string "a", ColDatum.real 3.14, ColDatum.date (RcppDate.ofMDY 7 4 2006)],
             [ColDatum.string "b", ColDatum.real 6.28,
              ColDatum.date (RcppDate.ofMDY 12 25 2006)]]),
         ("params", SEXP.list scenarioParams)] = SEXP.list entries ∧
      entries.length = 17 ∧
      entries.map Prod.fst =
        ["date", "dateVec", "method", "tolerance", "maxIter", "nlFirstName",
         "nlFirstValue", "matD", "stlvec", "stlmat", "a", "v", "stringVec", "strings",
         "InputDF", "PreDF", "params"]) ∧
    (∃ entries,
      SEXP.list
        [("date", SEXP.dateVector
            ([RcppDate.ofMDY 1 1 2000, RcppDate.ofMDY 12 28 1999].map
              (fun d => d + (7 : Int)))),
         ("datetime", SEXP.datetimeVector
            (([1.5, 2] : List ℚ).map (fun t => t + 0.250)))] = SEXP.list entries ∧
      entries.length = 2 ∧ entries.map Prod.fst = ["date", "datetime"]) :=
  ⟨(returned_lists_hold_the_added_entries (D := ℚ)).1 _ _ _ _ _ _ _ _ _ _ _ _ scenarioRun_eq,
   (returned_lists_hold_the_added_entries (D := ℚ)).2
      (SEXP.dateVector [RcppDate.ofMDY 1 1 2000, RcppDate.ofMDY 12 28 1999])
      (SEXP.datetimeVector [1.5, 2]) emptyWorld _ _
      (by rw [classicRcppDateExample, dateExample_run]; rfl)⟩

/-- C9: for every numeric vector `x` of length `n` and every matrix `M` with
`r ≥ 1` rows and `c` columns (the other inputs being valid), the list that
`Rcpp_Example` returns has `matD` and `a` equal to the `r` by `c` matrix of the
`2 * M[i][j]`, `v` equal to the vector of the `3 * x[i]`, `stlvec` equal to the
vector of the `3 * x[i] + 1` and `stlmat` equal to the `r` by `c` matrix of the
`2 * M[i][j] + 2`: the `+ 1` and `+ 2` of the STL copies leave `matD`, `a` and
`v` as they were. -/
theorem Rcpp_Example_scaled_results {D : Type} [Add D] [Mul D] [IntCast D] [OfScientific D]
    (ps : List (String × SEXP D)) (method : String) (tolerance : D)
    (maxIter : Int) (startDate : RcppDate) (nlist : SEXP D) (name0 : String) (value0 : D)
    (nlRest : List (String × D)) (x : List D) (r c : Nat) (rows : List (List D))
    (df : SEXP D) (inframe : RcppFrame D) (dates : List RcppDate)
    (strs : List String) (f g : HostFn D) (s0 : D) (sRest : List D) (o0 o1 o2 : D)
    (oRest : List D) (w : World D)
    (hmethod : ps.lookup "method" = some (SEXP.string method))
    (htol : ps.lookup "tolerance" = some (SEXP.real tolerance))
    (hiter : ps.lookup "maxIter" = some (SEXP.integer maxIter))
    (hdate : ps.lookup "startDate" = some (SEXP.date startDate))
    (hnl : RcppNumList.create nlist = Res.ok ((name0, value0) :: nlRest))
    (hr : rows.length = r) (hpos : 1 ≤ r)
    (hrows : ∀ row ∈ rows, row.length = c)
    (hdf : RcppFrame.ofSEXP df = Res.ok inframe)
    (hf : f (HostArg.vector Rcpp_Example.vecInput) = Except.ok (s0 :: sRest))
    (hg : g (HostArg.namedList Rcpp_Example.listArg) = Except.ok (o0 :: o1 :: o2 :: oRest)) :
    ∃ entries w1,
      Rcpp_Example (SEXP.list ps) nlist (SEXP.realVector x) (SEXP.matrix r c rows) df
        (SEXP.dateVector dates) (SEXP.stringVector strs) (SEXP.closure f) (SEXP.closure g) w =
        (Outcome.returned (SEXP.list entries), w1) ∧
      entries.lookup "matD" =
        some (SEXP.matrix r c (rows.map (List.map (fun m => ((2 : Int) : D) * m)))) ∧
      entries.lookup "a" =
        some (SEXP.matrix r c (rows.map (List.map (fun m => ((2 : Int) : D) * m)))) ∧
      entries.lookup "v" = some (SEXP.realVector (x.map (fun y => ((3 : Int) : D) * y))) ∧
      entries.lookup "stlvec" =
        some (SEXP.realVector (x.map (fun y => ((3 : Int) : D) * y + ((1 : Int) : D)))) ∧
      entries.lookup "stlmat" =
        some (SEXP.matrix r c
          (rows.map (List.map (fun m => ((2 : Int) : D) * m + ((2 : Int) : D))))) ∧
      (rows.map (List.map (fun m => ((2 : Int) : D) * m))).length = r ∧
      (∀ row ∈ rows.map (List.map (fun m => ((2 : Int) : D) * m)), row.length = c) ∧
      (x.map (fun y => ((3 : Int) : D) * y)).length = x.length ∧
      (x.map (fun y => ((3 : Int) : D) * y + ((1 : Int) : D))).length = x.length := by
  refine ⟨_, _, Rcpp_Example_valid ps method tolerance maxIter startDate nlist name0 value0
    nlRest x r c rows df inframe dates strs f g s0 sRest o0 o1 o2 oRest w hmethod htol hiter
    hdate hnl hr hpos hrows hdf hf hg, rfl, rfl, rfl, ?_, ?_, ?_, ?_, ?_, ?_⟩
  · have : (x.map (fun y => ((3 : Int) : D) * y)).map (fun y => y + ((1 : Int) : D)) =
        x.map (fun y => ((3 : Int) : D) * y + ((1 : Int) : D)) := by
      rw [List.map_map]; rfl
    rw [← this]; rfl
  · have : (rows.map (List.map (fun m => ((2 : Int) : D) * m))).map
          (List.map (fun m => m + ((2 : Int) : D))) =
        rows.map (List.map (fun m => ((2 : Int) : D) * m + ((2 : Int) : D))) := by
      rw [List.map_map]
      congr 1
      funext row
      simp only [Function.comp, List.map_map]
      rfl
    rw [← this]; rfl
  · simpa using hr
  · intro row hrow
    simp only [List.mem_map] at hrow
    obtain ⟨r1, hr1, rfl⟩ := hrow
    simpa using hrows r1 hr1
  · simp
  · simp

/-- Witness of C9: the scenario run, on the 2 by 3 matrix `1..6` and the vector
`1, 2, 3`. -/
theorem Rcpp_Example_scaled_results_witness :
    ∃ entries w1,
      scenarioRun scenarioMatrix (SEXP.closure sumOfElements) (SEXP.closure addOneToEach) =
        (Outcome.returned (SEXP.list entries), w1) ∧
      entries.lookup "matD" =
        some (SEXP.matrix 2 3
          (([[1, 2, 3], [4, 5, 6]] : List (List ℚ)).map (List.map (fun m => ((2 : Int) : ℚ) * m)))) ∧
      entries.lookup "a" =
        some (SEXP.matrix 2 3
          (([[1, 2, 3], [4, 5, 6]] : List (List ℚ)).map (List.map (fun m => ((2 : Int) : ℚ) * m)))) ∧
      entries.lookup "v" =
        some (SEXP.realVector (([1, 2, 3] : List ℚ).map (fun y => ((3 : Int) : ℚ) * y))) ∧
      entries.lookup "stlvec" =
        some (SEXP.realVector
          (([1, 2, 3] : List ℚ).map (fun y => ((3 : Int) : ℚ) * y + ((1 : Int) : ℚ)))) ∧
      entries.lookup "stlmat" =
        some (SEXP.matrix 2 3
          (([[1, 2, 3], [4, 5, 6]] : List (List ℚ)).map
            (List.map (fun m => ((2 : Int) : ℚ) * m + ((2 : Int) : ℚ))))) ∧
      (([[1, 2, 3], [4, 5, 6]] : List (List ℚ)).map
        (List.map (fun m => ((2 : Int) : ℚ) * m))).length = 2 ∧
      (∀ row ∈ ([[1, 2, 3], [4, 5, 6]] : List (List ℚ)).map
        (List.map (fun m => ((2 : Int) : ℚ) * m)), row.length = 3) ∧
      (([1, 2, 3] : List ℚ).map (fun y => ((3 : Int) : ℚ) * y)).length =
        ([1, 2, 3] : List ℚ).length ∧
      (([1, 2, 3] : List ℚ).map (fun y => ((3 : Int) : ℚ) * y + ((1 : Int) : ℚ))).length =
        ([1, 2, 3] : List ℚ).length :=
  Rcpp_Example_scaled_results scenarioParams "secant" 0.0001 100
    (RcppDate.ofMDY 12 25 1999) (SEXP.list [("ibm", SEXP.real 80.5), ("hp", SEXP.real 53.64)])
    "ibm" 80.5 [("hp", 53.64)] [1, 2, 3] 2 3 [[1, 2, 3], [4, 5, 6]]
    (SEXP.dataFrame ["x", "y"]
      [[ColDatum.integer 1, ColDatum.string "a"], [ColDatum.integer 2, ColDatum.string "b"]])
    { colNames := ["x", "y"],
      table := [[ColDatum.integer 1, ColDatum.string "a"],
                [ColDatum.integer 2, ColDatum.string "b"]] }
    [RcppDate.ofMDY 1 1 2000] ["a", "b"] sumOfElements addOneToEach 45 [] 2 3 4 [] emptyWorld
    rfl rfl rfl rfl rfl rfl (by decide) (by decide) rfl sumOfElements_vecInput
    addOneToEach_listArg

/-- C10: if the matrix argument is not a matrix without rows, the vector
callback does not return an empty vector and the list callback does not return
fewer than three elements, no unchecked access of `Rcpp_Example` and its
callback wrappers leaves its container, whatever the other arguments. Each of
the three conditions is needed: with the other inputs valid, a matrix without
rows (read `stlmat[0]`), an empty result of the vector callback (read of element
0 in `getSum`) and a result of the list callback shorter than three (reads
`vecOut[0]`, `vecOut[1]`, `vecOut[2]`) each make the behaviour undefined, not an
error. -/
theorem unchecked_accesses_need_the_precondition {D : Type} [Add D] [Mul D] [IntCast D]
    [OfScientific D] :
    (∀ (params nlist numvec nummat df datevec stringvec fnvec fnlist : SEXP D) (w : World D),
      (∀ c, nummat ≠ SEXP.matrix 0 c []) →
      (∀ f, fnvec = SEXP.closure f → f (HostArg.vector Rcpp_Example.vecInput) ≠ Except.ok []) →
      (∀ g r, fnlist = SEXP.closure g →
        g (HostArg.namedList Rcpp_Example.listArg) = Except.ok r → 3 ≤ r.length) →
      (Rcpp_Example params nlist numvec nummat df datevec stringvec fnvec fnlist w).1 ≠
        Outcome.undefined) ∧
    (∀ (f : HostFn D) (v : List D) (w : World D),
      (getSum (RcppFunction.wrap f) v w).1 = Res.undefined ↔
        f (HostArg.vector v) = Except.ok []) ∧
    (∀ (ps : List (String × SEXP D)) (method : String) (tolerance : D)
      (maxIter : Int) (startDate : RcppDate) (nlist : SEXP D) (nl : List (String × D))
      (x : List D) (c : Nat) (df : SEXP D) (dates : List RcppDate)
      (strs : List String) (fnvec fnlist : SEXP D) (w : World D),
      ps.lookup "method" = some (SEXP.string method) →
      ps.lookup "tolerance" = some (SEXP.real tolerance) →
      ps.lookup "maxIter" = some (SEXP.integer maxIter) →
      ps.lookup "startDate" = some (SEXP.date startDate) →
      RcppNumList.create nlist = Res.ok nl →
      (Rcpp_Example (SEXP.list ps) nlist (SEXP.realVector x) (SEXP.matrix 0 c []) df
        (SEXP.dateVector dates) (SEXP.stringVector strs) fnvec fnlist w).1 =
        Outcome.undefined) ∧
    (∀ (ps : List (String × SEXP D)) (method : String) (tolerance : D)
      (maxIter : Int) (startDate : RcppDate) (nlist : SEXP D) (name0 : String) (value0 : D)
      (nlRest : List (String × D)) (x : List D) (r c : Nat) (rows : List (List D))
      (df : SEXP D) (inframe : RcppFrame D) (dates : List RcppDate)
      (strs : List String) (f g : HostFn D) (w : World D),
      ps.lookup "method" = some (SEXP.string method) →
      ps.lookup "tolerance" = some (SEXP.real tolerance) →
      ps.lookup "maxIter" = some (SEXP.integer maxIter) →
      ps.lookup "startDate" = some (SEXP.date startDate) →
      RcppNumList.create nlist = Res.ok ((name0, value0) :: nlRest) →
      rows.length = r → 1 ≤ r → (∀ row ∈ rows, row.length = c) →
      RcppFrame.ofSEXP df = Res.ok inframe →
      (f (HostArg.vector Rcpp_Example.vecInput) = Except.ok [] →
        (Rcpp_Example (SEXP.list ps) nlist (SEXP.realVector x) (SEXP.matrix r c rows) df
          (SEXP.dateVector dates) (SEXP.stringVector strs) (SEXP.closure f) (SEXP.closure g)
          w).1 = Outcome.undefined) ∧
      (∀ s0 sRest result,
        f (HostArg.vector Rcpp_Example.vecInput) = Except.ok (s0 :: sRest) →
        g (HostArg.namedList Rcpp_Example.listArg) = Except.ok result →
        result.length < 3 →
        (Rcpp_Example (SEXP.list ps) nlist (SEXP.realVector x) (SEXP.matrix r c rows) df
          (SEXP.dateVector dates) (SEXP.stringVector strs) (SEXP.closure f) (SEXP.closure g)
          w).1 = Outcome.undefined)) := by
  refine ⟨?_, ?_, ?_, ?_⟩
  · intro params nlist numvec nummat df datevec stringvec fnvec fnlist w H1 H2 H3
    have h := tryBlock_defined params nlist numvec nummat df datevec stringvec fnvec fnlist w
      H1 H2 H3
    rw [Rcpp_Example]
    rcases hb : Rcpp_Example.tryBlock params nlist numvec nummat df datevec stringvec fnvec
      fnlist w with ⟨res, w1⟩
    rw [hb] at h
    cases res with
    | ok rl => simp [hostBoundary, raiseOrReturn]
    | throw e => cases e <;> simp [hostBoundary, raiseOrReturn]
    | undefined => exact absurd rfl h
  · intro f v w
    rw [getSum_eq]
    rcases hf : f (.vector v) with cause | res
    · simp
    · rcases res with _ | ⟨y, rest⟩ <;> simp
  · intro ps method tolerance maxIter startDate nlist nl x c df dates strs fnvec fnlist w
      hmethod htol hiter hdate hnl
    rw [Rcpp_Example, tryBlock_zero_rows ps method tolerance maxIter startDate nlist nl x c df
      dates strs fnvec fnlist w hmethod htol hiter hdate hnl]
    rfl
  · intro ps method tolerance maxIter startDate nlist name0 value0 nlRest x r c rows df inframe
      dates strs f g w hmethod htol hiter hdate hnl hr hpos hrows hdf
    subst hr
    obtain ⟨row0, h0⟩ : ∃ row0, rows[0]? = some row0 := by
      cases rows with
      | nil => simp at hpos
      | cons row0 rest => exact ⟨row0, by simp⟩
    have hrun := tryBlock_run ps method tolerance maxIter startDate nlist name0 value0 nlRest
      x c rows row0 df inframe dates strs f g w hmethod htol hiter hdate hnl hrows h0 hdf
    constructor
    · intro hf
      rw [Rcpp_Example, hrun, hf]
      rfl
    · intro s0 sRest result hf hg hlen
      rw [Rcpp_Example, hrun, hf, hg]
      rcases result with _ | ⟨o0, _ | ⟨o1, _ | ⟨o2, oRest⟩⟩⟩
      · rfl
      · rfl
      · rfl
      · exfalso
        simp only [List.length_cons] at hlen
        omega

/-- Witness of C10: the scenario run is defined; the same run on a matrix
without rows, with a vector callback that returns nothing, or with a list
callback that returns a single element, is not. -/
theorem unchecked_accesses_need_the_precondition_witness :
    (scenarioRun scenarioMatrix (SEXP.closure sumOfElements) (SEXP.closure addOneToEach)).1 ≠
      Outcome.undefined ∧
    (scenarioRun (SEXP.matrix 0 3 []) (SEXP.closure sumOfElements)
      (SEXP.closure addOneToEach)).1 = Outcome.undefined ∧
    (scenarioRun scenarioMatrix (SEXP.closure emptyResultFn) (SEXP.closure addOneToEach)).1 =
      Outcome.undefined ∧
    (scenarioRun scenarioMatrix (SEXP.closure sumOfElements) (SEXP.closure sumOfElements)).1 =
      Outcome.undefined :=
  ⟨(unchecked_accesses_need_the_precondition (D := ℚ)).1 _ _ _ _ _ _ _ _ _ emptyWorld
      scenarioMatrix_has_rows sumOfElements_nonempty addOneToEach_three,
   (unchecked_accesses_need_the_precondition (D := ℚ)).2.2.1 scenarioParams "secant" 0.0001 100
      (RcppDate.ofMDY 12 25 1999) (SEXP.list [("ibm", SEXP.real 80.5), ("hp", SEXP.real 53.64)])
      [("ibm", 80.5), ("hp", 53.64)] [1, 2, 3] 3
      (SEXP.dataFrame ["x", "y"]
        [[ColDatum.integer 1, ColDatum.string "a"], [ColDatum.integer 2, ColDatum.string "b"]])
      [RcppDate.ofMDY 1 1 2000] ["a", "b"] (SEXP.closure sumOfElements)
      (SEXP.closure addOneToEach) emptyWorld rfl rfl rfl rfl rfl,
   ((unchecked_accesses_need_the_precondition (D := ℚ)).2.2.2 scenarioParams "secant" 0.0001
      100 (RcppDate.ofMDY 12 25 1999)
      (SEXP.list [("ibm", SEXP.real 80.5), ("hp", SEXP.real 53.64)])
      "ibm" 80.5 [("hp", 53.64)] [1, 2, 3] 2 3 [[1, 2, 3], [4, 5, 6]]
      (SEXP.dataFrame ["x", "y"]
        [[ColDatum.integer 1, ColDatum.string "a"], [ColDatum.integer 2, ColDatum.string "b"]])
      { colNames := ["x", "y"],
        table := [[ColDatum.integer 1, ColDatum.string "a"],
                  [ColDatum.integer 2, ColDatum.string "b"]] }
      [RcppDate.ofMDY 1 1 2000] ["a", "b"] emptyResultFn addOneToEach emptyWorld
      rfl rfl rfl rfl rfl rfl (by decide) (by decide) rfl).1 rfl,
   ((unchecked_accesses_need_the_precondition (D := ℚ)).2.2.2 scenarioParams "secant" 0.0001
      100 (RcppDate.ofMDY 12 25 1999)
      (SEXP.list [("ibm", SEXP.real 80.5), ("hp", SEXP.real 53.64)])
      "ibm" 80.5 [("hp", 53.64)] [1, 2, 3] 2 3 [[1, 2, 3], [4, 5, 6]]
      (SEXP.dataFrame ["x", "y"]
        [[ColDatum.integer 1, ColDatum.string "a"], [ColDatum.integer 2, ColDatum.string "b"]])
      { colNames := ["x", "y"],
        table := [[ColDatum.integer 1, ColDatum.string "a"],
                  [ColDatum.integer 2, ColDatum.string "b"]] }
      [RcppDate.ofMDY 1 1 2000] ["a", "b"] sumOfElements sumOfElements emptyWorld
      rfl rfl rfl rfl rfl rfl (by decide) (by decide) rfl).2 45 []
      [(Rcpp_Example.listArg.map Prod.snd).sum] sumOfElements_vecInput rfl (by decide)⟩

end RcppClassic
